import Mathlib

/-!
# Verification of the outfit-generator orchestration core

A shallow embedding of the generation orchestration code of the
`outfit-generator` repository, together with proofs of the specified
properties.

Embedded sources:
* `src/services/outfitGenerator.ts` — request fingerprinting, in-memory and
  durable caching, provider retry loop, error classification.
* `src/hooks/useOutfitGeneration.ts` — the user-facing `generateOutfit`
  operation: in-flight guard, hook-level cache, rate-limit admission,
  fallback to the composite generator, error trapping.
* `src/lib/supabase.ts` — durable cache lookup/write behaviour
  (`getCachedComposite` returns `null` on error, `uploadImage` and
  `saveCachedComposite` throw on error).
* the variant pipeline in the repository's unnamed file (`part_003`), which
  derives the retry base delay from the server-supplied retry-after value.

The rate limiter service (`src/services/rateLimiter.ts`) is not among the
provided sources; it is modelled from the specification (§4.1), as marked on
the corresponding definitions.

Conventions: JavaScript `undefined`/absent fields become `Option`;
JavaScript truthiness of an optional string (both `undefined` and `""` are
falsy) is `optTruthy`; machine time is `Nat` milliseconds; asynchronous
functions that can reject become `Except`-valued functions; the mutable
module state (`window.__outfitCache`, the Supabase table, the React refs)
is passed explicitly as record values.
-/

/-- JavaScript truthiness of an optional string: `undefined` and `""` are
falsy, every other string is truthy. -/
def optTruthy : Option String → Bool
  | none => false
  | some s => s != ""

/-- A provider error as inspected by the classification helpers of
`outfitGenerator.ts`.  The chained lookups of the source are collapsed into
one field each: `code` is `err?.error?.code || err?.status || err?.code`,
`status` is `err?.error?.status || err?.statusMessage`, `message` is the
error's message string when it has one, and `retryDelay` is the
`retryDelay` string of the `RetryInfo` entry of `err?.error?.details` when
such an entry exists. -/
structure GenError where
  code : Option Nat
  status : Option String
  message : Option String
  retryDelay : Option String
  deriving Repr, DecidableEq

/-- `isQuotaError` of `outfitGenerator.ts`: code 429 or status
`RESOURCE_EXHAUSTED`. -/
def isQuotaError (e : GenError) : Bool :=
  if e.code == some 429 then true
  else e.status == some "RESOURCE_EXHAUSTED"

/-- `message.includes(pat)` on JavaScript strings: `pat` occurs as a
contiguous substring of `s`. -/
def strIncludes (s pat : String) : Bool :=
  s.toList.tails.any (fun t => pat.toList.isPrefixOf t)

/-- `isTimeoutError` of `outfitGenerator.ts`: code 503/504, or the message
contains "Deadline expired" or "timeout".  The message defaults to `""`
when absent (`err?.message || err?.error?.message || ""`). -/
def isTimeoutError (e : GenError) : Bool :=
  if e.code == some 503 || e.code == some 504 then true
  else
    let message := e.message.getD ""
    strIncludes message "Deadline expired" || strIncludes message "timeout"

/-- `isRetryableError` of `outfitGenerator.ts`. -/
def isRetryableError (e : GenError) : Bool :=
  isQuotaError e || isTimeoutError e

/-- Digit list to number, as `parseInt(_, 10)` on an all-digit string. -/
def digitsToNat (cs : List Char) : Nat :=
  cs.foldl (fun n c => n * 10 + (c.toNat - '0'.toNat)) 0

/-- The regular-expression match of `getRetryMsFromError`:
`/^(\d+)(?:\.(\d+))?s$/` applied to a retry-delay string.  Returns the
integer seconds and the (possibly empty) fractional digit string. -/
def parseRetryDelay (s : String) : Option (Nat × List Char) :=
  let cs := s.toList
  let intPart := cs.takeWhile Char.isDigit
  let rest := cs.dropWhile Char.isDigit
  if intPart.isEmpty then none
  else
    match rest with
    | ['s'] => some (digitsToNat intPart, [])
    | '.' :: rest2 =>
      let fracPart := rest2.takeWhile Char.isDigit
      let rest3 := rest2.dropWhile Char.isDigit
      if fracPart.isEmpty then none
      else
        match rest3 with
        | ['s'] => some (digitsToNat intPart, fracPart)
        | _ => none
    | _ => none

/-- `m[2].slice(0, 3).padEnd(3, "0")` parsed as a number: the fractional
digits truncated to milliseconds. -/
def fracToMs (frac : List Char) : Nat :=
  digitsToNat (frac.take 3 ++ List.replicate (3 - frac.length) '0')

/-- `getRetryMsFromError` of `outfitGenerator.ts`: the server-specified
retry-after duration in milliseconds when the error carries a parseable
`RetryInfo` retry delay, otherwise the fallback. -/
def getRetryMsFromError (e : GenError) (fallbackMs : Nat) : Nat :=
  match e.retryDelay with
  | none => fallbackMs
  | some s =>
    match parseRetryDelay s with
    | some (sec, frac) => sec * 1000 + fracToMs frac
    | none => fallbackMs

/-- `Math.round (base * Math.pow (1.5, k))` for a natural `base`, computed
exactly: `1.5 ^ k = 3 ^ k / 2 ^ k` and `Math.round x = ⌊x + 1/2⌋` for the
non-negative values that occur here. -/
def roundMulPow3over2 (base k : Nat) : Nat :=
  (base * 3 ^ k * 2 + 2 ^ k) / 2 ^ (k + 1)

/-- The wait computed by the retry loop of `outfitGenerator.ts` (lines
268-270) before retry number `attempt` (the incremented attempt counter):
`Math.round(base * Math.pow(1.5, attempt - 1))` with base 5000 for
timeouts and 60000 otherwise. -/
def retryWaitMs (e : GenError) (attempt : Nat) : Nat :=
  let base := if isTimeoutError e then 5000 else 60000
  roundMulPow3over2 base (attempt - 1)

/-- The wait computed by the retry loop of the `part_003` variant pipeline
(`const base = getRetryMsFromError(err, 20000);
const waitMs = Math.round(base * Math.pow(2, attempt - 1));`) — exact on
naturals, so the rounding is the identity. -/
def retryWaitMsP3 (e : GenError) (attempt : Nat) : Nat :=
  getRetryMsFromError e 20000 * 2 ^ (attempt - 1)

/-- `OutfitGenerationResult` of `outfitGenerator.ts`. -/
structure OutfitGenerationResult where
  success : Bool
  imageUrl : Option String
  error : Option String
  deriving Repr, DecidableEq

/-- One part of a Gemini response candidate. -/
structure RespPart where
  text : Option String
  inlineData : Option String
  deriving Repr, DecidableEq

/-- A Gemini response, collapsed to `candidates?.[0]?.content?.parts || []`. -/
structure GenResponse where
  parts : List RespPart
  deriving Repr, DecidableEq

/-- The outcome of one `genAI.models.generateContent` invocation. -/
inductive ProviderOutcome where
  | ok (resp : GenResponse)
  | fail (e : GenError)

/-- Stand-in for `JSON.stringify(err)`, used only when the error has no
`message` string; the exact serialized text is not modelled, but it is a
deterministic function of the error. -/
def stringifyError (e : GenError) : String :=
  String.intercalate "|" [toString e.code, toString e.status, toString e.retryDelay]

/-- The error result built when the retry loop of `outfitGenerator.ts`
gives up (lines 251-266): a user-facing message selected by error kind,
quota checked before timeout, otherwise the raw backend message appended
to a fixed marker. -/
def exhaustedErrorResult (e : GenError) : OutfitGenerationResult :=
  let msg := match e.message with
    | some m => m
    | none => stringifyError e
  if isQuotaError e then
    ⟨false, none,
      some "API rate limit exceeded. Please wait 60 seconds before trying again."⟩
  else if isTimeoutError e then
    ⟨false, none,
      some "Request timeout. Images have been compressed to 1024x1024. If this persists, try waiting a moment or using smaller source images."⟩
  else
    ⟨false, none, some ("Gemini API error. " ++ msg)⟩

/-- Outcome of the `while (attempt < maxAttempts)` retry loop. -/
inductive LoopOutcome where
  | result (r : OutfitGenerationResult)
  | response (resp : GenResponse)
  deriving Repr

/-- The retry loop of `generateOutfitInternal` (lines 241-279), recursion
on the number of attempts still permitted (`maxAttempts - attempt`, which
is positive whenever the loop body runs starting from `attempt = 0`).
`provider` gives the outcome of each provider invocation, indexed by a
global invocation counter starting at `callIdx`.  Returns the loop
outcome, the number of provider invocations made, and the list of backoff
waits performed. -/
def runAttemptsAux (provider : Nat → ProviderOutcome) (callIdx attempt fuel : Nat) :
    LoopOutcome × Nat × List Nat :=
  match fuel with
  | 0 => (.result ⟨false, none, some "loop exited without response"⟩, 0, [])
  | fuel' + 1 =>
    match provider callIdx with
    | .ok resp => (.response resp, 1, [])
    | .fail e =>
      if !isRetryableError e || attempt ≥ 3 - 1 then
        (.result (exhaustedErrorResult e), 1, [])
      else
        let w := retryWaitMs e (attempt + 1)
        let (out, n, ws) := runAttemptsAux provider (callIdx + 1) (attempt + 1) fuel'
        (out, n + 1, w :: ws)

/-- The retry loop entered with `attempt = 0`, `maxAttempts = 3`. -/
def runAttempts (provider : Nat → ProviderOutcome) (callIdx : Nat) :
    LoopOutcome × Nat × List Nat :=
  runAttemptsAux provider callIdx 0 3

/-- `parts.map(p => p.text).filter(Boolean).join("\n")` of lines 283-287. -/
def textJoin (parts : List RespPart) : String :=
  String.intercalate "\n" ((parts.filterMap RespPart.text).filter (fun t => t != ""))

/-- `parts.find(p => p.inlineData?.data)` of line 281. -/
def findImagePart (parts : List RespPart) : Option RespPart :=
  parts.find? (fun p => optTruthy p.inlineData)

/-- Response handling of `generateOutfitInternal` (lines 280-294): either
the base64 image payload or the failure result returned to the caller. -/
def parseResponse (resp : GenResponse) : Except OutfitGenerationResult String :=
  match findImagePart resp.parts with
  | none =>
    let t := textJoin resp.parts
    let msg := if t == "" then "No image data returned" else t
    .error ⟨false, none, some ("Gemini did not return an image. " ++ msg)⟩
  | some p =>
    match p.inlineData with
    | some d =>
      if d == "" then .error ⟨false, none, some "No image data in response"⟩
      else .ok d
    | none => .error ⟨false, none, some "No image data in response"⟩

/-- The model constant of `outfitGenerator.ts`. -/
def MODEL : String := "gemini-2.5-flash-image-preview"

/-- The cache-key marker constant of `outfitGenerator.ts` (source name
`CACHE_PREFIX`, renamed here). -/
def CACHE_PREF : String := "outfit_"

/-- `DEFAULT_BODY_PATH` of `outfitGenerator.ts`. -/
def DEFAULT_BODY_PATH : String := "/assets/model.png"

/-- `buildPrompt()` of `outfitGenerator.ts` (the fixed instruction text). -/
def buildPrompt : String :=
  "Create a new image by combining the elements from the provided images. Take the top clothing item from image 1 and the bottom clothing item from image 2, and place them naturally onto the body in image 3 so it looks like the person is wearing the selected outfit. Fit to body shape and pose, preserve garment proportions and textures, match lighting and shadows, handle occlusion by hair and arms. CRITICAL: The background must be completely white (#FFFFFF) - do not use black, transparent, or any other background color. Replace any existing background with solid white. Do not change the person identity or add accessories."

/-- `cacheKeyFor` of `outfitGenerator.ts`: the in-memory fingerprint,
derived from the model id, the three image paths, and the length of the
instruction text. -/
def cacheKeyFor (topPath bottomPath bodyPath prompt : String) : String :=
  CACHE_PREF ++ MODEL ++ "|" ++ topPath ++ "|" ++ bottomPath ++ "|" ++ bodyPath ++
    "|v1:" ++ toString prompt.length

/-- `cacheKeyFor` of the `part_003` variant pipeline: as above, with an
optional shoe path spliced in after the bottom path when truthy. -/
def cacheKeyForP3 (topPath bottomPath bodyPath prompt : String)
    (shoePath : Option String) : String :=
  let shoesPart := if optTruthy shoePath then "|" ++ shoePath.getD "" else ""
  CACHE_PREF ++ MODEL ++ "|" ++ topPath ++ "|" ++ bottomPath ++ shoesPart ++ "|" ++
    bodyPath ++ "|v1:" ++ toString prompt.length

/-- Lookup in a JavaScript `Map` modelled as an association list. -/
def mapLookup (m : List (String × String)) (k : String) : Option String :=
  (m.find? (fun kv => kv.1 == k)).map Prod.snd

/-- `Map.set` semantics: the new binding shadows any previous one. -/
def mapInsert (m : List (String × String)) (k v : String) : List (String × String) :=
  (k, v) :: m.filter (fun kv => kv.1 != k)

/-- The durable `generated_outfits` table keyed by `(top_id, bottom_id)`
(the `shoe_id` column is `null` for every row written by the embedded
5-parameter pipeline, so it is omitted from the key). -/
def dLookup (m : List ((String × String) × String)) (k : String × String) :
    Option String :=
  (m.find? (fun kv => kv.1 == k)).map Prod.snd

/-- Upsert into the durable table. -/
def dInsert (m : List ((String × String) × String)) (k : String × String)
    (v : String) : List ((String × String) × String) :=
  (k, v) :: m.filter (fun kv => kv.1 != k)

/-- `getCachedComposite` of `supabase.ts`: a lookup that returns `null`
both on a missing row and on a query error, and coerces a falsy stored
URL to `null` (`data?.generated_image_url || null`). -/
def getCachedComposite (m : List ((String × String) × String))
    (topId bottomId : String) : Option String :=
  match dLookup m (topId, bottomId) with
  | some url => if url == "" then none else some url
  | none => none

/-- The environment of one generation request: the collaborator behaviour
visible to `generateOutfitInternal` and to the hook.  `provider n` is the
outcome of the `n`-th provider invocation of the process (counted in
`GenState.providerCalls`); `fetchOk p` says whether `toBase64 p` succeeds
(its `fetch` resolves with an ok response); `uploadOk` says whether the
`uploadImage`/`saveCachedComposite` pair succeeds, in which case the
public URL is `storageUrl`; `compositeResult` is the outcome of the
fallback `imageComposer.createComposite` collaborator. -/
structure Env where
  hasApiKey : Bool
  fetchOk : String → Bool
  provider : Nat → ProviderOutcome
  uploadOk : Bool
  storageUrl : String
  compositeResult : OutfitGenerationResult

/-- The mutable state read and written by `generateOutfitInternal`:
the in-memory cache (`window.__outfitCache`), the durable table, and the
count of provider invocations made so far in the process. -/
structure GenState where
  outfitCache : List (String × String)
  durable : List ((String × String) × String)
  providerCalls : Nat

/-- JavaScript truthiness of the optional id arguments
(`if (topId && bottomId)`). -/
def idTruthy : Option String → Bool
  | none => false
  | some s => s != ""

/-- The memory-cache-hit branch of `generateOutfitInternal` (lines
203-224) and the identical tail of the fresh-generation branch (lines
296-315): given the data URL about to be returned, re-upload it to
durable storage when both ids are truthy, falling back to the data URL
when storage fails. -/
def storeAndReturn (env : Env) (st : GenState) (topId bottomId : Option String)
    (dataUrl : String) : OutfitGenerationResult × GenState :=
  if idTruthy topId && idTruthy bottomId then
    if env.uploadOk then
      (⟨true, some env.storageUrl, none⟩,
        { st with durable := dInsert st.durable (topId.getD "", bottomId.getD "") env.storageUrl })
    else
      (⟨true, some dataUrl, none⟩, st)
  else
    (⟨true, some dataUrl, none⟩, st)

/-- `generateOutfitInternal` of `outfitGenerator.ts` (the 5-parameter
pipeline): API-key check, durable cache check, in-memory cache check,
input fetch/preprocess (`toBase64`, which throws when a fetch fails),
retry loop around the provider, response handling, cache writes.
`.error m` models the function rejecting with message `m` (an exception
crossing its boundary); `.ok r` models a returned result. -/
def generateOutfitInternal (env : Env) (st : GenState)
    (topPath bottomPath bodyPath : String) (topId bottomId : Option String) :
    Except String OutfitGenerationResult × GenState :=
  if !env.hasApiKey then
    (.ok ⟨false, none,
      some "Set VITE_GOOGLE_API_KEY and enable billing for image generation."⟩, st)
  else
    let durableHit :=
      if idTruthy topId && idTruthy bottomId then
        getCachedComposite st.durable (topId.getD "") (bottomId.getD "")
      else none
    match durableHit with
    | some url => (.ok ⟨true, some url, none⟩, st)
    | none =>
      let prompt := buildPrompt
      let key := cacheKeyFor topPath bottomPath bodyPath prompt
      match mapLookup st.outfitCache key with
      | some dataUrl =>
        let (r, st') := storeAndReturn env st topId bottomId dataUrl
        (.ok r, st')
      | none =>
        if !env.fetchOk topPath then (.error ("Failed to load " ++ topPath), st)
        else if !env.fetchOk bottomPath then (.error ("Failed to load " ++ bottomPath), st)
        else if !env.fetchOk bodyPath then (.error ("Failed to load " ++ bodyPath), st)
        else
          match runAttempts env.provider st.providerCalls with
          | (.result r, n, _) =>
            (.ok r, { st with providerCalls := st.providerCalls + n })
          | (.response resp, n, _) =>
            let st1 := { st with providerCalls := st.providerCalls + n }
            match parseResponse resp with
            | .error r => (.ok r, st1)
            | .ok d =>
              let dataUrl := "data:image/png;base64," ++ d
              let st2 := { st1 with outfitCache := mapInsert st1.outfitCache key dataUrl }
              let (r, st') := storeAndReturn env st2 topId bottomId dataUrl
              (.ok r, st')

/-- Modelled from the spec: the result type of the rate limiter's
`canProceed`/`canMakeCall` admission check (§4.1 — the service file
`src/services/rateLimiter.ts` is not among the provided sources, only its
callers are). -/
structure RateLimitResult where
  allowed : Bool
  reason : Option String
  waitMs : Option Nat
  deriving Repr, DecidableEq

/-- Modelled from the spec: the rate limiter state (§3 `RateLimitState`,
§4.1): a time-ordered list of recent call timestamps, the last call
timestamp, and the runtime-reconfigurable window/quota/cooldown settings
(`App.tsx` sets them to `{cooldownMs: 2000, maxCalls: 10, windowMs:
60000}` on mount). -/
structure RateLimiterState where
  timestamps : List Nat
  lastCall : Option Nat
  cooldownMs : Nat
  maxCalls : Nat
  windowMs : Nat
  deriving Repr, DecidableEq

/-- Modelled from the spec: "drop entries older than `now - windowMs`"
(§4.1) — an entry `t` is kept when `t ≥ now - windowMs`, written
subtraction-free as `now ≤ t + windowMs`. -/
def purgeTimestamps (st : RateLimiterState) (now : Nat) : List Nat :=
  st.timestamps.filter (fun t => now ≤ t + st.windowMs)

/-- Modelled from the spec: the wait a quota denial reports — the time
until the oldest in-window timestamp leaves the window (an entry `t` is
dropped at the first instant strictly greater than `t + windowMs`). -/
def quotaWaitMs (ts : List Nat) (windowMs now : Nat) : Nat :=
  match ts.head? with
  | some oldest => oldest + windowMs + 1 - now
  | none => 0

/-- Modelled from the spec: `canProceed` of the rate limiter (§4.1);
purge first, deny `cooldown` while `now - lastCall < cooldownMs` with the
wait until the cooldown lapses, else deny `quota` while the in-window
count is at least `maxCalls` with the wait until the oldest in-window
entry leaves the window.  Returns the decision and the purged state. -/
def canMakeCall (st : RateLimiterState) (now : Nat) :
    RateLimitResult × RateLimiterState :=
  let ts := purgeTimestamps st now
  let st' := { st with timestamps := ts }
  let cooldownBlock : Bool :=
    match st.lastCall with
    | some last => decide (now - last < st.cooldownMs)
    | none => false
  if cooldownBlock then
    let last := st.lastCall.getD 0
    (⟨false, some "cooldown", some (st.cooldownMs - (now - last))⟩, st')
  else if ts.length ≥ st.maxCalls then
    (⟨false, some "quota", some (quotaWaitMs ts st.windowMs now)⟩, st')
  else
    (⟨true, none, none⟩, st')

/-- Modelled from the spec: `recordCall` appends the current time and
updates the last-call timestamp (§4.1). -/
def recordCall (st : RateLimiterState) (now : Nat) : RateLimiterState :=
  { st with timestamps := st.timestamps ++ [now], lastCall := some now }

/-- Modelled from the spec: a client issuing admission checks at the given
times, recording a call exactly when admitted (the usage pattern of
`useOutfitGeneration.ts`: `canMakeCall` then, if allowed, `recordCall`).
Returns the final state and the list of admitted times. -/
def runChecks (st : RateLimiterState) : List Nat → RateLimiterState × List Nat
  | [] => (st, [])
  | t :: ts =>
    let res := (canMakeCall st t).1
    let st1 := (canMakeCall st t).2
    if res.allowed then
      let out := runChecks (recordCall st1 t) ts
      (out.1, t :: out.2)
    else
      runChecks st1 ts

/-- A clothing item as used by the hook (`{id, imageUrl}`). -/
structure ClothingItem where
  id : String
  imageUrl : String
  deriving Repr, DecidableEq

/-- The React state and refs of `useOutfitGeneration`. -/
structure HookState where
  generatedImage : Option String
  isGenerating : Bool
  error : Option String
  isComposite : Bool
  inFlight : Bool
  hookCache : List (String × (String × Bool))
  deriving Repr, DecidableEq

/-- Lookup in the hook's `cacheRef` map (key to `{url, isComposite}`). -/
def hookCacheLookup (m : List (String × (String × Bool))) (k : String) :
    Option (String × Bool) :=
  (m.find? (fun kv => kv.1 == k)).map Prod.snd

/-- `cacheRef.current.set` with `Map.set` semantics. -/
def hookCacheInsert (m : List (String × (String × Bool))) (k : String)
    (v : String × Bool) : List (String × (String × Bool)) :=
  (k, v) :: m.filter (fun kv => kv.1 != k)

/-- The hook-level cache key of `generateOutfit`
(`outfit::top.id::bottom.id[::shoes.id]::modelKey`). -/
def hookKey (top bottom : ClothingItem) (modelImageUrl : Option String)
    (shoes : Option ClothingItem) : String :=
  let modelKey := if optTruthy modelImageUrl then modelImageUrl.getD "" else "default"
  let shoesKey := match shoes with | some s => "::" ++ s.id | none => ""
  "outfit::" ++ top.id ++ "::" ++ bottom.id ++ shoesKey ++ "::" ++ modelKey

/-- The complete mutable world the hook touches: its own React state, the
rate limiter singleton, and the generator's module state. -/
structure World where
  hs : HookState
  rl : RateLimiterState
  gs : GenState

/-- Outcome of the synchronous section of the hook's `generateOutfit`
(everything before its first `await`): either the call returned already
(`done`), or it is suspended at `await outfitGenerator.generateOutfit`
with the in-flight guard held (`proceed`, carrying the hook cache key). -/
inductive Phase1Out where
  | done (w : World)
  | proceed (w : World) (key : String)

/-- The synchronous section of `generateOutfit` in
`useOutfitGeneration.ts` (lines 41-75): in-flight guard check and
acquisition, hook-cache check, rate-limit admission, pre-flight state
updates, and `rateLimiter.recordCall()`.  All of this runs atomically in
one JavaScript event-loop turn before the first suspension point. -/
def hookPhase1 (now : Nat) (w : World) (top bottom : ClothingItem)
    (modelImageUrl : Option String) (shoes : Option ClothingItem) : Phase1Out :=
  if w.hs.inFlight then .done w
  else
    let hs := { w.hs with inFlight := true }
    let key := hookKey top bottom modelImageUrl shoes
    match hookCacheLookup hs.hookCache key with
    | some cached =>
      .done { w with hs := { hs with
        generatedImage := some cached.1, isComposite := cached.2,
        error := none, inFlight := false } }
    | none =>
      let checked := canMakeCall w.rl now
      let check := checked.1
      let rl1 := checked.2
      if !check.allowed then
        .done { w with
          hs := { hs with
            error := some (if optTruthy check.reason then check.reason.getD ""
                           else "Rate limit exceeded"),
            generatedImage := none, isComposite := false, inFlight := false },
          rl := rl1 }
      else
        .proceed { w with
          hs := { hs with isGenerating := true, error := none, isComposite := false },
          rl := recordCall rl1 now } key

/-- The `catch` branch of the hook's `generateOutfit` (lines 117-120). -/
def hookCatch (hs : HookState) : HookState :=
  { hs with
    error := some "Failed to generate outfit. Please try again."
    generatedImage := none
    isComposite := false }

/-- The rest of the hook's `generateOutfit` (lines 77-124): await the
generator, on success publish and cache the image, otherwise try the
composite fallback, trap every thrown error in the `catch` branch, and
run the `finally` block (clear `isGenerating` and the in-flight guard) on
every path. -/
def hookPhase2 (env : Env) (w : World) (key : String)
    (top bottom : ClothingItem) (modelImageUrl : Option String) : World :=
  let bodyPath := if optTruthy modelImageUrl then modelImageUrl.getD ""
                  else "/assets/model.png"
  let out := generateOutfitInternal env w.gs top.imageUrl bottom.imageUrl
      bodyPath (some top.id) (some bottom.id)
  let res := out.1
  let gs' := out.2
  let hsAfter :=
    match res with
    | .error _ => hookCatch w.hs
    | .ok r =>
      if r.success && optTruthy r.imageUrl then
        { w.hs with
          generatedImage := r.imageUrl
          isComposite := false
          hookCache := hookCacheInsert w.hs.hookCache key (r.imageUrl.getD "", false) }
      else
        let comp := env.compositeResult
        if comp.success && optTruthy comp.imageUrl then
          { w.hs with
            generatedImage := comp.imageUrl
            isComposite := true
            error := some "Using composite image (AI generation unavailable)"
            hookCache := hookCacheInsert w.hs.hookCache key (comp.imageUrl.getD "", true) }
        else hookCatch w.hs
  { w with
    gs := gs'
    hs := { hsAfter with isGenerating := false, inFlight := false } }

/-- The complete `generateOutfit` operation of `useOutfitGeneration.ts`:
the synchronous section followed, when it suspends, by the rest of the
call. -/
def hookGenerateOutfit (env : Env) (now : Nat) (w : World)
    (top bottom : ClothingItem) (modelImageUrl : Option String)
    (shoes : Option ClothingItem) : World :=
  match hookPhase1 now w top bottom modelImageUrl shoes with
  | .done w' => w'
  | .proceed w' key => hookPhase2 env w' key top bottom modelImageUrl

/-! ## Helper lemmas -/

theorem mapLookup_insert_self (m : List (String × String)) (k v : String) :
    mapLookup (mapInsert m k v) k = some v := by
  simp [mapLookup, mapInsert, List.find?]

theorem getCachedComposite_insert (m : List ((String × String) × String))
    (a b v : String) :
    getCachedComposite (dInsert m (a, b) v) a b =
      if v == "" then none else some v := by
  simp [getCachedComposite, dLookup, dInsert, List.find?]

theorem storeAndReturn_success (env : Env) (st : GenState)
    (topId bottomId : Option String) (dataUrl : String) :
    (storeAndReturn env st topId bottomId dataUrl).1.success = true ∧
    (storeAndReturn env st topId bottomId dataUrl).2.outfitCache = st.outfitCache ∧
    (storeAndReturn env st topId bottomId dataUrl).2.providerCalls = st.providerCalls := by
  unfold storeAndReturn
  split <;> [skip; simp] <;> split <;> simp

theorem runAttempts_calls_pos (provider : Nat → ProviderOutcome) (c : Nat) :
    1 ≤ (runAttempts provider c).2.1 := by
  unfold runAttempts runAttemptsAux
  cases provider c with
  | ok resp => simp
  | fail e => dsimp; split <;> simp

/-- A `.result` outcome of the retry loop always carries `success = false`. -/
theorem runAttemptsAux_result_not_success (provider : Nat → ProviderOutcome)
    (c a fuel : Nat) (r : OutfitGenerationResult)
    (h : (runAttemptsAux provider c a fuel).1 = .result r) :
    r.success = false := by
  induction fuel generalizing c a with
  | zero =>
    simp only [runAttemptsAux] at h
    cases h
    rfl
  | succ fuel ih =>
    simp only [runAttemptsAux] at h
    cases hp : provider c with
    | ok resp => rw [hp] at h; simp at h
    | fail e =>
      rw [hp] at h
      dsimp at h
      split at h
      · cases h
        simp [exhaustedErrorResult]
        split <;> [rfl; skip] <;> split <;> rfl
      · exact ih _ _ h

/-! ## C10 — the cache key depends on the prompt only through its length -/

/-- C10: the in-memory cache key depends on the instruction text only
through its length: two prompts of equal length combined with identical
top, bottom and body image paths (and shoe path, in the variant with shoe
support) produce the same `cacheKeyFor` key, so distinct prompts of equal
length share one cached result. -/
theorem C10_cache_key_depends_only_on_prompt_length
    (topPath bottomPath bodyPath p1 p2 : String) (shoePath : Option String)
    (h : p1.length = p2.length) :
    cacheKeyFor topPath bottomPath bodyPath p1 =
      cacheKeyFor topPath bottomPath bodyPath p2 ∧
    cacheKeyForP3 topPath bottomPath bodyPath p1 shoePath =
      cacheKeyForP3 topPath bottomPath bodyPath p2 shoePath := by
  unfold cacheKeyFor cacheKeyForP3
  rw [h]
  exact ⟨rfl, rfl⟩

/-- Witness for C10 at two distinct prompts of equal length. -/
theorem C10_cache_key_depends_only_on_prompt_length_witness :
    ("dark suit" : String) ≠ "red shirt" ∧
    ("dark suit" : String).length = ("red shirt" : String).length ∧
    cacheKeyFor "t.png" "b.png" "m.png" "dark suit" =
      cacheKeyFor "t.png" "b.png" "m.png" "red shirt" := by
  refine ⟨by decide, by decide, ?_⟩
  exact (C10_cache_key_depends_only_on_prompt_length "t.png" "b.png" "m.png"
      "dark suit" "red shirt" none (by decide)).1

/-! ## C5 — server-specified retry-after versus the computed backoff -/

/-- A quota error carrying a server-specified retry-after of 3 seconds. -/
def quotaErrRetryAfter3s : GenError :=
  ⟨some 429, none, some "quota exceeded", some "3s"⟩

/-- C5 counterexample: a quota error carries a server-specified
retry-after of 3 s (`getRetryMsFromError` extracts 3000 ms), yet the
retry loop of `outfitGenerator.ts` waits 60000 ms before the first retry
and 90000 ms before the second — the computed backoff, not the
server-specified duration.  The claim that the wait equals the
server-specified duration is therefore false at this input. -/
theorem C5_counterexample :
    getRetryMsFromError quotaErrRetryAfter3s 20000 = 3000 ∧
    (runAttempts (fun _ => .fail quotaErrRetryAfter3s) 0).2.2 = [60000, 90000] ∧
    (60000 : Nat) ≠ 3000 ∧ (90000 : Nat) ≠ 3000 := by
  decide

/-- C5 amended: `getRetryMsFromError` extracts the server-specified
retry-after duration (seconds plus fractional milliseconds) whenever the
error carries one.  In the `part_003` variant pipeline this value is used
as the base of the backoff instead of the 20000 ms default — so it takes
precedence over the default base, and the wait equals the
server-specified duration exactly on the first retry, being doubled on
each later retry.  The retry loop of `outfitGenerator.ts`, however,
ignores the server-specified duration entirely: its wait is unchanged by
any modification of the error's retry-after field. -/
theorem C5_amended_retry_after_precedence
    (e : GenError) (s : String) (sec : Nat) (frac : List Char) (fb : Nat)
    (hd : e.retryDelay = some s) (hp : parseRetryDelay s = some (sec, frac)) :
    getRetryMsFromError e fb = sec * 1000 + fracToMs frac ∧
    retryWaitMsP3 e 1 = sec * 1000 + fracToMs frac ∧
    (∀ k, retryWaitMsP3 e (k + 1) = (sec * 1000 + fracToMs frac) * 2 ^ k) ∧
    (∀ d a, retryWaitMs { e with retryDelay := d } a = retryWaitMs e a) := by
  have hms : ∀ fb', getRetryMsFromError e fb' = sec * 1000 + fracToMs frac := by
    intro fb'
    simp [getRetryMsFromError, hd, hp]
  refine ⟨hms fb, ?_, ?_, ?_⟩
  · simp [retryWaitMsP3, hms]
  · intro k
    simp [retryWaitMsP3, hms]
  · intro d a
    cases e
    rfl

/-- Witness for the amended C5 at the concrete 3-second retry-after
error. -/
theorem C5_amended_retry_after_precedence_witness :
    getRetryMsFromError quotaErrRetryAfter3s 20000 = 3 * 1000 + fracToMs [] ∧
    retryWaitMsP3 quotaErrRetryAfter3s 1 = 3 * 1000 + fracToMs [] ∧
    (retryWaitMsP3 quotaErrRetryAfter3s 2 = (3 * 1000 + fracToMs []) * 2 ^ 1) ∧
    retryWaitMs { quotaErrRetryAfter3s with retryDelay := none } 1 =
      retryWaitMs quotaErrRetryAfter3s 1 := by
  have h := C5_amended_retry_after_precedence quotaErrRetryAfter3s "3s" 3 [] 20000
    rfl (by decide)
  exact ⟨h.1, h.2.1, h.2.2.1 1, h.2.2.2 none 1⟩

/-! ## C7 — the retry loop stops on fatal errors or exhausted attempts -/

theorem runAttemptsAux_ok (provider : Nat → ProviderOutcome) (c a fuel : Nat)
    (resp : GenResponse) (hp : provider c = .ok resp) :
    runAttemptsAux provider c a (fuel + 1) = (.response resp, 1, []) := by
  simp only [runAttemptsAux, hp]

theorem runAttemptsAux_stop (provider : Nat → ProviderOutcome) (c a fuel : Nat)
    (e : GenError) (hp : provider c = .fail e)
    (h : isRetryableError e = false ∨ 3 - 1 ≤ a) :
    runAttemptsAux provider c a (fuel + 1) = (.result (exhaustedErrorResult e), 1, []) := by
  simp only [runAttemptsAux, hp]
  rw [if_pos]
  rcases h with h | h
  · simp [h]
  · simp [h]

theorem runAttemptsAux_retry (provider : Nat → ProviderOutcome) (c a fuel : Nat)
    (e : GenError) (hp : provider c = .fail e)
    (hr : isRetryableError e = true) (ha : a < 3 - 1) :
    runAttemptsAux provider c a (fuel + 1) =
      ((runAttemptsAux provider (c + 1) (a + 1) fuel).1,
       (runAttemptsAux provider (c + 1) (a + 1) fuel).2.1 + 1,
       retryWaitMs e (a + 1) :: (runAttemptsAux provider (c + 1) (a + 1) fuel).2.2) := by
  simp only [runAttemptsAux, hp]
  rw [if_neg]
  simp [hr, ha, Nat.not_le.mpr ha]

/-- C7: if provider invocation `k` (0-based, after `k` retryable failures)
fails with an error that is not retryable (not Quota/Timeout), or `k` is
the last permitted attempt (`k = 2`, i.e. the attempt count reached
`maxAttempts = 3`), the loop stops at exactly `k + 1` provider
invocations — no further attempts — and returns the user-facing message
selected by error kind: the wait-60-seconds message for Quota, the
reduce-image-size/retry message for Timeout, and the raw backend message
(behind the fixed "Gemini API error. " marker) for Fatal. -/
theorem C7_retry_stops_with_kind_message
    (provider : Nat → ProviderOutcome) (c0 k : Nat) (e : GenError)
    (hk : k < 3)
    (hpre : ∀ i, i < k → ∃ ei, provider (c0 + i) = .fail ei ∧ isRetryableError ei = true)
    (hfail : provider (c0 + k) = .fail e)
    (hstop : isRetryableError e = false ∨ k = 2) :
    (runAttempts provider c0).1 = .result (exhaustedErrorResult e) ∧
    (runAttempts provider c0).2.1 = k + 1 ∧
    (isQuotaError e = true →
      (exhaustedErrorResult e).error =
        some "API rate limit exceeded. Please wait 60 seconds before trying again.") ∧
    (isQuotaError e = false → isTimeoutError e = true →
      (exhaustedErrorResult e).error =
        some "Request timeout. Images have been compressed to 1024x1024. If this persists, try waiting a moment or using smaller source images.") ∧
    (isRetryableError e = false → ∀ m, e.message = some m →
      (exhaustedErrorResult e).error = some ("Gemini API error. " ++ m)) := by
  have hmsg1 : isQuotaError e = true →
      (exhaustedErrorResult e).error =
        some "API rate limit exceeded. Please wait 60 seconds before trying again." := by
    intro hq
    simp [exhaustedErrorResult, hq]
  have hmsg2 : isQuotaError e = false → isTimeoutError e = true →
      (exhaustedErrorResult e).error =
        some "Request timeout. Images have been compressed to 1024x1024. If this persists, try waiting a moment or using smaller source images." := by
    intro hq ht
    simp [exhaustedErrorResult, hq, ht]
  have hmsg3 : isRetryableError e = false → ∀ m, e.message = some m →
      (exhaustedErrorResult e).error = some ("Gemini API error. " ++ m) := by
    intro hr m hm
    have hq : isQuotaError e = false := by
      cases hq : isQuotaError e with
      | true => rw [isRetryableError, hq] at hr; simp at hr
      | false => rfl
    have ht : isTimeoutError e = false := by
      cases ht : isTimeoutError e with
      | true => rw [isRetryableError, ht] at hr; simp at hr
      | false => rfl
    simp [exhaustedErrorResult, hq, ht, hm]
  have hloop : runAttempts provider c0 = (.result (exhaustedErrorResult e), k + 1, (runAttempts provider c0).2.2) := by
    unfold runAttempts
    interval_cases k
    · have := runAttemptsAux_stop provider c0 0 2 e (by simpa using hfail)
        (by rcases hstop with h | h; exact Or.inl h; omega)
      rw [this]
    · obtain ⟨e0, he0, hr0⟩ := hpre 0 (by omega)
      have hr : isRetryableError e = false := by
        rcases hstop with h | h
        · exact h
        · omega
      rw [runAttemptsAux_retry provider c0 0 2 e0 (by simpa using he0) hr0 (by omega),
          runAttemptsAux_stop provider (c0 + 1) 1 1 e (by simpa using hfail) (Or.inl hr)]
    · obtain ⟨e0, he0, hr0⟩ := hpre 0 (by omega)
      obtain ⟨e1, he1, hr1⟩ := hpre 1 (by omega)
      rw [runAttemptsAux_retry provider c0 0 2 e0 (by simpa using he0) hr0 (by omega),
          runAttemptsAux_retry provider (c0 + 1) 1 1 e1 (by simpa using he1) hr1 (by omega),
          runAttemptsAux_stop provider (c0 + 1 + 1) 2 0 e (by simpa using hfail) (Or.inr (by omega))]
  refine ⟨?_, ?_, hmsg1, hmsg2, hmsg3⟩
  · rw [hloop]
  · rw [hloop]

/-- A fatal (non-retryable) provider error used as concrete input. -/
def fatalErr : GenError := ⟨some 400, none, some "Invalid API key", none⟩

/-- Witness for C7: a fatal error on the first attempt stops the loop at
one invocation and surfaces the raw backend message. -/
theorem C7_retry_stops_with_kind_message_witness :
    (runAttempts (fun _ => .fail fatalErr) 0).1 = .result (exhaustedErrorResult fatalErr) ∧
    (runAttempts (fun _ => .fail fatalErr) 0).2.1 = 0 + 1 ∧
    (exhaustedErrorResult fatalErr).error = some ("Gemini API error. " ++ "Invalid API key") := by
  have h := C7_retry_stops_with_kind_message (fun _ => .fail fatalErr) 0 0 fatalErr
    (by omega) (by intro i hi; omega) rfl (Or.inl (by decide))
  exact ⟨h.1, h.2.1, h.2.2.2.2 (by decide) "Invalid API key" rfl⟩

/-! ## C6 — two timeouts then success: three invocations, cached key -/

/-- C6: a request whose provider call fails twice with a Timeout error and
succeeds on the third attempt returns `success = true`, invokes the
provider exactly 3 times, and leaves the request's cache key in the
in-memory cache afterwards. -/
theorem C6_two_timeouts_then_success (env : Env) (st : GenState)
    (topPath bottomPath bodyPath : String) (topId bottomId : Option String)
    (e1 e2 : GenError) (resp : GenResponse) (d : String)
    (hkey : env.hasApiKey = true)
    (hdur : (if idTruthy topId && idTruthy bottomId then
        getCachedComposite st.durable (topId.getD "") (bottomId.getD "")
      else none) = none)
    (hmem : mapLookup st.outfitCache
        (cacheKeyFor topPath bottomPath bodyPath buildPrompt) = none)
    (hf1 : env.fetchOk topPath = true) (hf2 : env.fetchOk bottomPath = true)
    (hf3 : env.fetchOk bodyPath = true)
    (hp0 : env.provider st.providerCalls = .fail e1)
    (hp1 : env.provider (st.providerCalls + 1) = .fail e2)
    (hp2 : env.provider (st.providerCalls + 1 + 1) = .ok resp)
    (ht1 : isTimeoutError e1 = true) (ht2 : isTimeoutError e2 = true)
    (hresp : parseResponse resp = .ok d) :
    (∃ r, (generateOutfitInternal env st topPath bottomPath bodyPath topId bottomId).1
        = .ok r ∧ r.success = true) ∧
    (generateOutfitInternal env st topPath bottomPath bodyPath topId bottomId).2.providerCalls
      = st.providerCalls + 3 ∧
    mapLookup (generateOutfitInternal env st topPath bottomPath bodyPath topId bottomId).2.outfitCache
        (cacheKeyFor topPath bottomPath bodyPath buildPrompt)
      = some ("data:image/png;base64," ++ d) := by
  have hloop : runAttempts env.provider st.providerCalls
      = (.response resp, 3, [retryWaitMs e1 1, retryWaitMs e2 2]) := by
    unfold runAttempts
    rw [runAttemptsAux_retry _ _ _ _ e1 hp0 (by simp [isRetryableError, ht1]) (by omega),
        runAttemptsAux_retry _ _ _ _ e2 hp1 (by simp [isRetryableError, ht2]) (by omega),
        runAttemptsAux_ok _ _ _ _ resp hp2]
  simp only [generateOutfitInternal, hkey, Bool.not_true, Bool.false_eq_true, if_false,
    hdur, hmem, hf1, hf2, hf3, hloop, hresp]
  obtain ⟨h1, h2, h3⟩ := storeAndReturn_success env
    { st with
      providerCalls := st.providerCalls + 3
      outfitCache := mapInsert st.outfitCache
        (cacheKeyFor topPath bottomPath bodyPath buildPrompt)
        ("data:image/png;base64," ++ d) }
    topId bottomId ("data:image/png;base64," ++ d)
  refine ⟨⟨_, rfl, h1⟩, by simpa using h3, ?_⟩
  rw [h2]
  exact mapLookup_insert_self _ _ _

/-- A timeout error (code 503) used as concrete input. -/
def timeoutErr503 : GenError := ⟨some 503, none, some "Deadline expired", none⟩

/-- A response carrying one inline image part, used as concrete input. -/
def respWithImage : GenResponse := ⟨[⟨none, some "IMG"⟩]⟩

/-- A concrete environment whose provider times out twice and succeeds on
the third invocation. -/
def envTwoTimeouts : Env :=
  ⟨true, fun _ => true,
   (fun n => if n = 2 then .ok respWithImage else .fail timeoutErr503),
   false, "", ⟨false, none, none⟩⟩

/-- The empty generator state. -/
def freshGenState : GenState := ⟨[], [], 0⟩

/-- Witness for C6 at the concrete two-timeouts-then-success environment. -/
theorem C6_two_timeouts_then_success_witness :
    (∃ r, (generateOutfitInternal envTwoTimeouts freshGenState "t.png" "b.png" "m.png"
        none none).1 = .ok r ∧ r.success = true) ∧
    (generateOutfitInternal envTwoTimeouts freshGenState "t.png" "b.png" "m.png"
        none none).2.providerCalls = 0 + 3 ∧
    mapLookup (generateOutfitInternal envTwoTimeouts freshGenState "t.png" "b.png" "m.png"
        none none).2.outfitCache
        (cacheKeyFor "t.png" "b.png" "m.png" buildPrompt)
      = some ("data:image/png;base64," ++ "IMG") :=
  C6_two_timeouts_then_success envTwoTimeouts freshGenState "t.png" "b.png" "m.png"
    none none timeoutErr503 timeoutErr503 respWithImage "IMG"
    rfl rfl rfl rfl rfl rfl rfl rfl rfl (by decide) (by decide) rfl

/-! ## C8 — the in-flight guard is released on every exit path -/

/-- The second half of the hook call clears the guard unconditionally: its
`finally` block runs on the success, fallback, and thrown-error paths
alike. -/
theorem hookPhase2_clears_guard (env : Env) (w : World) (key : String)
    (top bottom : ClothingItem) (modelImageUrl : Option String) :
    (hookPhase2 env w key top bottom modelImageUrl).hs.inFlight = false ∧
    (hookPhase2 env w key top bottom modelImageUrl).hs.isGenerating = false := by
  exact ⟨rfl, rfl⟩

/-- C8: the in-flight guard entry is released on every exit path of
`generateOutfit` — success, thrown error, and the early returns (cache
hit, rate-limit denial) — so after an invocation that found the guard
free completes, the guard is free again and a subsequent request is never
permanently blocked. -/
theorem C8_guard_released_on_every_path (env : Env) (now : Nat) (w : World)
    (top bottom : ClothingItem) (modelImageUrl : Option String)
    (shoes : Option ClothingItem) (h : w.hs.inFlight = false) :
    (hookGenerateOutfit env now w top bottom modelImageUrl shoes).hs.inFlight = false := by
  unfold hookGenerateOutfit hookPhase1
  rw [h]
  simp only [Bool.false_eq_true, if_false]
  split
  next w' heq =>
    split at heq
    next => cases heq; rfl
    next =>
      split at heq
      next => cases heq; rfl
      next => cases heq
  next w' key heq =>
    split at heq
    next => cases heq
    next =>
      split at heq
      next => cases heq
      next =>
        cases heq
        exact (hookPhase2_clears_guard env _ _ top bottom modelImageUrl).1

/-- Witness for C8: a concrete call (which runs the full
provider-success path) ends with the guard clear. -/
theorem C8_guard_released_on_every_path_witness :
    (hookGenerateOutfit envTwoTimeouts 0
      ⟨⟨none, false, none, false, false, []⟩, ⟨[], none, 2000, 10, 60000⟩, freshGenState⟩
      ⟨"T1", "t.png"⟩ ⟨"B1", "b.png"⟩ none none).hs.inFlight = false :=
  C8_guard_released_on_every_path envTwoTimeouts 0
    ⟨⟨none, false, none, false, false, []⟩, ⟨[], none, 2000, 10, 60000⟩, freshGenState⟩
    ⟨"T1", "t.png"⟩ ⟨"B1", "b.png"⟩ none none rfl

/-! ## C4 — collaborator failures are caught and classified -/

/-- On every failing path of the second half of the hook call — a thrown
generator error, a failed generation with failed fallback — and on every
successful path, the published state is classified: no image implies an
error message. -/
theorem hookPhase2_failure_has_error (env : Env) (w : World) (key : String)
    (top bottom : ClothingItem) (m : Option String) :
    (hookPhase2 env w key top bottom m).hs.generatedImage = none →
    ∃ msg, (hookPhase2 env w key top bottom m).hs.error = some msg := by
  unfold hookPhase2
  cases hi : (generateOutfitInternal env w.gs top.imageUrl bottom.imageUrl
      (if optTruthy m = true then m.getD "" else "/assets/model.png")
      (some top.id) (some bottom.id)).1 with
  | error e =>
    simp only [hi]
    intro _
    exact ⟨_, rfl⟩
  | ok r =>
    simp only [hi]
    by_cases hs : (r.success && optTruthy r.imageUrl) = true
    · rw [if_pos hs]
      intro hg
      have hg' : r.imageUrl = none := hg
      rw [hg'] at hs
      simp [optTruthy] at hs
    · rw [if_neg hs]
      by_cases hc : (env.compositeResult.success && optTruthy env.compositeResult.imageUrl) = true
      · rw [if_pos hc]
        intro hg
        have hg' : env.compositeResult.imageUrl = none := hg
        rw [hg'] at hc
        simp [optTruthy] at hc
      · rw [if_neg hc]
        intro _
        exact ⟨_, rfl⟩

/-- A thrown generator error is trapped by the hook's `catch` branch:
the generic failure message is published and no image is set. -/
theorem hookPhase2_thrown_error_caught (env : Env) (w : World) (key : String)
    (top bottom : ClothingItem) (m : Option String) (e : String)
    (hi : (generateOutfitInternal env w.gs top.imageUrl bottom.imageUrl
      (if optTruthy m = true then m.getD "" else "/assets/model.png")
      (some top.id) (some bottom.id)).1 = .error e) :
    (hookPhase2 env w key top bottom m).hs.error
      = some "Failed to generate outfit. Please try again." ∧
    (hookPhase2 env w key top bottom m).hs.generatedImage = none := by
  unfold hookPhase2
  simp only [hi]
  exact ⟨rfl, rfl⟩

/-- C4: no exception crosses the boundary of the `generateOutfit`
operation.  The embedded operation is a total function into plain states
(the generator's rejection, `.error`, is an input it consumes, never an
output), and (i) whenever the completed call publishes no image, it
publishes an error message instead, and (ii) whenever the generator
rejects — input-image fetch failure, or any other collaborator failure
propagating through it — the call completes with the classified failure
message `{success:false, error:<message>}` rather than rethrowing. -/
theorem C4_no_exception_crosses_boundary (env : Env) (now : Nat) (w : World)
    (top bottom : ClothingItem) (modelImageUrl : Option String)
    (shoes : Option ClothingItem) (h : w.hs.inFlight = false) :
    ((hookGenerateOutfit env now w top bottom modelImageUrl shoes).hs.generatedImage = none →
      ∃ m, (hookGenerateOutfit env now w top bottom modelImageUrl shoes).hs.error = some m) ∧
    (∀ w1 key e, hookPhase1 now w top bottom modelImageUrl shoes = .proceed w1 key →
      (generateOutfitInternal env w1.gs top.imageUrl bottom.imageUrl
          (if optTruthy modelImageUrl = true then modelImageUrl.getD "" else "/assets/model.png")
          (some top.id) (some bottom.id)).1 = .error e →
      (hookGenerateOutfit env now w top bottom modelImageUrl shoes).hs.error
          = some "Failed to generate outfit. Please try again." ∧
      (hookGenerateOutfit env now w top bottom modelImageUrl shoes).hs.generatedImage = none) := by
  constructor
  · unfold hookGenerateOutfit hookPhase1
    rw [h]
    simp only [Bool.false_eq_true, if_false]
    split
    next w' heq =>
      split at heq
      next => cases heq; intro hg; simp at hg
      next =>
        split at heq
        next => cases heq; intro _; exact ⟨_, rfl⟩
        next => cases heq
    next w' key heq =>
      split at heq
      next => cases heq
      next =>
        split at heq
        next => cases heq
        next =>
          cases heq
          exact hookPhase2_failure_has_error env _ _ top bottom modelImageUrl
  · intro w1 key e hphase hi
    unfold hookGenerateOutfit
    rw [hphase]
    exact hookPhase2_thrown_error_caught env w1 key top bottom modelImageUrl e hi

/-- Concrete clothing items. -/
def topItem : ClothingItem := ⟨"T1", "t.png"⟩

/-- Concrete clothing items. -/
def botItem : ClothingItem := ⟨"B1", "b.png"⟩

/-- A fresh world: idle hook, empty caches, freshly configured limiter. -/
def freshWorld : World :=
  ⟨⟨none, false, none, false, false, []⟩, ⟨[], none, 2000, 10, 60000⟩, freshGenState⟩

/-- An environment whose top-image fetch fails, so the generator rejects. -/
def envFetchFails : Env :=
  ⟨true, (fun p => p != "t.png"), (fun _ => .ok respWithImage), false, "",
   ⟨false, none, none⟩⟩

/-- Witness for C4: with a failing input-image fetch the generator
rejects, yet the completed call publishes an error message. -/
theorem C4_no_exception_crosses_boundary_witness :
    ∃ m, (hookGenerateOutfit envFetchFails 0 freshWorld topItem botItem none none).hs.error
      = some m :=
  (C4_no_exception_crosses_boundary envFetchFails 0 freshWorld topItem botItem
    none none rfl).1 (by decide)

/-! ## C2 — single flight: concurrent requests for one key -/

/-- While a call is in flight, a newly arriving call is rejected
synchronously by the guard check (lines 41-44), leaving every piece of
state untouched — in particular it invokes no provider and records no
rate-limiter call. -/
theorem hookPhase1_busy_rejects (now : Nat) (w : World) (top bottom : ClothingItem)
    (modelImageUrl : Option String) (shoes : Option ClothingItem)
    (h : w.hs.inFlight = true) :
    hookPhase1 now w top bottom modelImageUrl shoes = .done w := by
  unfold hookPhase1
  rw [h]
  rfl

/-- `n` further requests arriving while the first request is suspended at
its provider await: each runs only its synchronous section (the first
suspension point of `generateOutfit` comes after the guard, cache, rate
checks and `recordCall`, so those sections execute atomically in arrival
order within one event-loop turn). -/
def arrivalsDuringFlight (now : Nat) (top bottom : ClothingItem)
    (modelImageUrl : Option String) (shoes : Option ClothingItem) :
    Nat → World → World
  | 0, w => w
  | n + 1, w =>
    let w' := match hookPhase1 now w top bottom modelImageUrl shoes with
      | .done w'' => w''
      | .proceed w'' _ => w''
    arrivalsDuringFlight now top bottom modelImageUrl shoes n w'

/-- Arrivals during a flight change nothing. -/
theorem arrivalsDuringFlight_noop (now : Nat) (top bottom : ClothingItem)
    (modelImageUrl : Option String) (shoes : Option ClothingItem) (n : Nat)
    (w : World) (h : w.hs.inFlight = true) :
    arrivalsDuringFlight now top bottom modelImageUrl shoes n w = w := by
  induction n with
  | zero => rfl
  | succ n ih =>
    unfold arrivalsDuringFlight
    rw [hookPhase1_busy_rejects now w top bottom modelImageUrl shoes h]
    exact ih

/-- `canMakeCall` returns the purged state on every branch. -/
theorem canMakeCall_state (st : RateLimiterState) (now : Nat) :
    (canMakeCall st now).2 = { st with timestamps := purgeTimestamps st now } := by
  unfold canMakeCall
  dsimp only
  split
  · rfl
  · split
    · rfl
    · rfl

/-- Under a cache miss the generator's provider-call count grows by the
retry loop's invocation count. -/
theorem generateOutfitInternal_reaches_provider (env : Env) (st : GenState)
    (topPath bottomPath bodyPath : String) (topId bottomId : Option String)
    (hkey : env.hasApiKey = true)
    (hdur : (if idTruthy topId && idTruthy bottomId then
        getCachedComposite st.durable (topId.getD "") (bottomId.getD "")
      else none) = none)
    (hmem : mapLookup st.outfitCache
        (cacheKeyFor topPath bottomPath bodyPath buildPrompt) = none)
    (hf1 : env.fetchOk topPath = true) (hf2 : env.fetchOk bottomPath = true)
    (hf3 : env.fetchOk bodyPath = true) :
    (generateOutfitInternal env st topPath bottomPath bodyPath topId bottomId).2.providerCalls
      = st.providerCalls + (runAttempts env.provider st.providerCalls).2.1 := by
  simp only [generateOutfitInternal, hkey, Bool.not_true, Bool.false_eq_true, if_false,
    hdur, hmem, hf1, hf2, hf3]
  rcases hra : runAttempts env.provider st.providerCalls with ⟨out, n, ws⟩
  cases out with
  | result r => simp [hra]
  | response resp =>
    simp only [hra]
    cases hpr : parseResponse resp with
    | error r => simp [hpr]
    | ok d =>
      simp only [hpr]
      exact (storeAndReturn_success env _ topId bottomId _).2.2

/-- C2: of any batch of concurrently issued `generateOutfit` requests
sharing one cache key, exactly one passes the in-flight guard; that
request records the one rate-limiter call and reaches the provider-call
stage, while every other request is rejected synchronously by the guard
— never queued — changing no state at all (so it neither invokes the
provider nor records a rate-limiter call). -/
theorem C2_single_flight_guard (env : Env) (now : Nat) (w : World)
    (top bottom : ClothingItem) (modelImageUrl : Option String)
    (shoes : Option ClothingItem) (n : Nat)
    (hflight : w.hs.inFlight = false)
    (hcache : hookCacheLookup w.hs.hookCache
        (hookKey top bottom modelImageUrl shoes) = none)
    (hallow : (canMakeCall w.rl now).1.allowed = true)
    (hkey : env.hasApiKey = true)
    (hdur : getCachedComposite w.gs.durable top.id bottom.id = none)
    (hmem : mapLookup w.gs.outfitCache (cacheKeyFor top.imageUrl bottom.imageUrl
        (if optTruthy modelImageUrl = true then modelImageUrl.getD ""
         else "/assets/model.png") buildPrompt) = none)
    (hf1 : env.fetchOk top.imageUrl = true) (hf2 : env.fetchOk bottom.imageUrl = true)
    (hf3 : env.fetchOk (if optTruthy modelImageUrl = true then modelImageUrl.getD ""
        else "/assets/model.png") = true) :
    ∃ w1 key,
      hookPhase1 now w top bottom modelImageUrl shoes = .proceed w1 key ∧
      arrivalsDuringFlight now top bottom modelImageUrl shoes n w1 = w1 ∧
      w1.rl.timestamps = purgeTimestamps w.rl now ++ [now] ∧
      w1.gs = w.gs ∧
      (hookPhase2 env w1 key top bottom modelImageUrl).gs.providerCalls
        > w.gs.providerCalls := by
  refine ⟨{ w with
      hs := { w.hs with
        inFlight := true, isGenerating := true, error := none, isComposite := false },
      rl := recordCall (canMakeCall w.rl now).2 now },
    hookKey top bottom modelImageUrl shoes, ?_, ?_, ?_, rfl, ?_⟩
  · unfold hookPhase1
    rw [hflight]
    simp only [Bool.false_eq_true, if_false, hcache, hallow, Bool.not_true]
  · exact arrivalsDuringFlight_noop now top bottom modelImageUrl shoes n _ rfl
  · rw [canMakeCall_state]
    rfl
  · have hdur' : (if idTruthy (some top.id) && idTruthy (some bottom.id) then
        getCachedComposite w.gs.durable ((some top.id).getD "") ((some bottom.id).getD "")
      else none) = none := by
      split
      · simpa using hdur
      · rfl
    have hcount := generateOutfitInternal_reaches_provider env w.gs
      top.imageUrl bottom.imageUrl
      (if optTruthy modelImageUrl = true then modelImageUrl.getD ""
       else "/assets/model.png")
      (some top.id) (some bottom.id) hkey hdur' hmem hf1 hf2 hf3
    have hpos := runAttempts_calls_pos env.provider w.gs.providerCalls
    have hgs : (hookPhase2 env { w with
        hs := { w.hs with
          inFlight := true, isGenerating := true, error := none, isComposite := false },
        rl := recordCall (canMakeCall w.rl now).2 now }
        (hookKey top bottom modelImageUrl shoes) top bottom modelImageUrl).gs
        = (generateOutfitInternal env w.gs top.imageUrl bottom.imageUrl
            (if optTruthy modelImageUrl = true then modelImageUrl.getD ""
             else "/assets/model.png") (some top.id) (some bottom.id)).2 := rfl
    rw [hgs, hcount]
    omega

/-- Witness for C2: three concurrent duplicates of a fresh request are
all guard-rejected while the first records one rate-limiter call and
reaches the provider. -/
theorem C2_single_flight_guard_witness :
    ∃ w1 key,
      hookPhase1 0 freshWorld topItem botItem none none = .proceed w1 key ∧
      arrivalsDuringFlight 0 topItem botItem none none 3 w1 = w1 ∧
      w1.rl.timestamps = purgeTimestamps freshWorld.rl 0 ++ [0] ∧
      w1.gs = freshWorld.gs ∧
      (hookPhase2 envTwoTimeouts w1 key topItem botItem none).gs.providerCalls
        > freshWorld.gs.providerCalls :=
  C2_single_flight_guard envTwoTimeouts 0 freshWorld topItem botItem none none 3
    rfl rfl rfl rfl rfl rfl rfl rfl rfl

/-! ## C3 — exhausted retries: fallback or surfaced error -/

/-- The retry loop's give-up result never carries `success = true`. -/
theorem exhaustedErrorResult_not_success (e : GenError) :
    (exhaustedErrorResult e).success = false := by
  unfold exhaustedErrorResult
  dsimp only
  split
  · rfl
  · split
    · rfl
    · rfl

/-- The guard/cache/rate section admits a fresh request and suspends. -/
theorem hookPhase1_proceeds (now : Nat) (w : World) (top bottom : ClothingItem)
    (modelImageUrl : Option String) (shoes : Option ClothingItem)
    (hflight : w.hs.inFlight = false)
    (hcache : hookCacheLookup w.hs.hookCache
        (hookKey top bottom modelImageUrl shoes) = none)
    (hallow : (canMakeCall w.rl now).1.allowed = true) :
    hookPhase1 now w top bottom modelImageUrl shoes = .proceed { w with
      hs := { w.hs with
        inFlight := true, isGenerating := true, error := none, isComposite := false },
      rl := recordCall (canMakeCall w.rl now).2 now }
      (hookKey top bottom modelImageUrl shoes) := by
  unfold hookPhase1
  rw [hflight]
  simp only [Bool.false_eq_true, if_false, hcache, hallow, Bool.not_true]

/-- C3 counterexample: the provider exhausts its three attempts with
quota errors and the composite fallback also fails.  The inner generator
surfaces the classified message (the wait-60-seconds quota message), but
the completed `generateOutfit` call publishes the fixed generic message
instead — the last classified provider error is not surfaced to the
caller, refuting the claim's "otherwise" branch. -/
def quotaErrPlain : GenError := ⟨some 429, none, some "quota hit", none⟩

/-- An environment whose provider always fails with a quota error and
whose composite fallback fails too. -/
def envQuotaExhaustedNoFallback : Env :=
  ⟨true, fun _ => true, (fun _ => .fail quotaErrPlain), false, "",
   ⟨false, none, some "canvas error"⟩⟩

theorem C3_counterexample :
    (generateOutfitInternal envQuotaExhaustedNoFallback freshGenState "t.png" "b.png"
        "/assets/model.png" (some "T1") (some "B1")).1
      = .ok ⟨false, none,
          some "API rate limit exceeded. Please wait 60 seconds before trying again."⟩ ∧
    (hookGenerateOutfit envQuotaExhaustedNoFallback 0 freshWorld topItem botItem
        none none).hs.error
      = some "Failed to generate outfit. Please try again." ∧
    some "Failed to generate outfit. Please try again."
      ≠ some "API rate limit exceeded. Please wait 60 seconds before trying again." := by
  refine ⟨rfl, by decide, by decide⟩

/-- C3 amended: when all three provider attempts fail with retryable
(Timeout/Quota) errors, the inner generator returns the classified
message of the last error; the completed `generateOutfit` call is
degraded (`isComposite = true`) when the composite fallback succeeds,
and otherwise fails with the fixed message "Failed to generate outfit.
Please try again." — the hook replaces the classified provider error
with this generic message on the fallback-failure path. -/
theorem C3_amended_exhausted_fallback_or_generic (env : Env) (now : Nat) (w : World)
    (top bottom : ClothingItem) (modelImageUrl : Option String)
    (shoes : Option ClothingItem) (e0 e1 e2 : GenError)
    (hflight : w.hs.inFlight = false)
    (hcache : hookCacheLookup w.hs.hookCache
        (hookKey top bottom modelImageUrl shoes) = none)
    (hallow : (canMakeCall w.rl now).1.allowed = true)
    (hkey : env.hasApiKey = true)
    (hdur : getCachedComposite w.gs.durable top.id bottom.id = none)
    (hmem : mapLookup w.gs.outfitCache (cacheKeyFor top.imageUrl bottom.imageUrl
        (if optTruthy modelImageUrl = true then modelImageUrl.getD ""
         else "/assets/model.png") buildPrompt) = none)
    (hf1 : env.fetchOk top.imageUrl = true) (hf2 : env.fetchOk bottom.imageUrl = true)
    (hf3 : env.fetchOk (if optTruthy modelImageUrl = true then modelImageUrl.getD ""
        else "/assets/model.png") = true)
    (hp0 : env.provider w.gs.providerCalls = .fail e0)
    (hp1 : env.provider (w.gs.providerCalls + 1) = .fail e1)
    (hp2 : env.provider (w.gs.providerCalls + 1 + 1) = .fail e2)
    (hr0 : isRetryableError e0 = true) (hr1 : isRetryableError e1 = true) :
    (generateOutfitInternal env w.gs top.imageUrl bottom.imageUrl
        (if optTruthy modelImageUrl = true then modelImageUrl.getD ""
         else "/assets/model.png") (some top.id) (some bottom.id)).1
      = .ok (exhaustedErrorResult e2) ∧
    ((env.compositeResult.success && optTruthy env.compositeResult.imageUrl) = true →
      (hookGenerateOutfit env now w top bottom modelImageUrl shoes).hs.isComposite = true ∧
      (hookGenerateOutfit env now w top bottom modelImageUrl shoes).hs.generatedImage
        = env.compositeResult.imageUrl ∧
      (hookGenerateOutfit env now w top bottom modelImageUrl shoes).hs.error
        = some "Using composite image (AI generation unavailable)") ∧
    ((env.compositeResult.success && optTruthy env.compositeResult.imageUrl) = false →
      (hookGenerateOutfit env now w top bottom modelImageUrl shoes).hs.generatedImage = none ∧
      (hookGenerateOutfit env now w top bottom modelImageUrl shoes).hs.error
        = some "Failed to generate outfit. Please try again.") := by
  have hdur' : (if idTruthy (some top.id) && idTruthy (some bottom.id) then
      getCachedComposite w.gs.durable ((some top.id).getD "") ((some bottom.id).getD "")
    else none) = none := by
    split
    · simpa using hdur
    · rfl
  have hloop : runAttempts env.provider w.gs.providerCalls
      = (.result (exhaustedErrorResult e2), 3,
         [retryWaitMs e0 1, retryWaitMs e1 2]) := by
    unfold runAttempts
    rw [runAttemptsAux_retry _ _ _ _ e0 hp0 hr0 (by omega),
        runAttemptsAux_retry _ _ _ _ e1 hp1 hr1 (by omega),
        runAttemptsAux_stop _ _ _ _ e2 hp2 (Or.inr (by omega))]
  have hinternal : (generateOutfitInternal env w.gs top.imageUrl bottom.imageUrl
      (if optTruthy modelImageUrl = true then modelImageUrl.getD ""
       else "/assets/model.png") (some top.id) (some bottom.id)).1
      = .ok (exhaustedErrorResult e2) := by
    simp only [generateOutfitInternal, hkey, Bool.not_true, Bool.false_eq_true, if_false,
      hdur', hmem, hf1, hf2, hf3, hloop]
  refine ⟨hinternal, ?_, ?_⟩ <;>
  · intro hcomp
    rw [show hookGenerateOutfit env now w top bottom modelImageUrl shoes
        = hookPhase2 env { w with
            hs := { w.hs with
              inFlight := true, isGenerating := true, error := none, isComposite := false },
            rl := recordCall (canMakeCall w.rl now).2 now }
            (hookKey top bottom modelImageUrl shoes) top bottom modelImageUrl from by
      unfold hookGenerateOutfit
      rw [hookPhase1_proceeds now w top bottom modelImageUrl shoes hflight hcache hallow]]
    unfold hookPhase2
    dsimp only
    rw [hinternal]
    dsimp only
    rw [exhaustedErrorResult_not_success, Bool.false_and]
    simp only [Bool.false_eq_true, if_false, hcomp]
    first
      | exact ⟨rfl, rfl, rfl⟩
      | exact ⟨rfl, rfl⟩

/-! ## C1 — cache idempotence of repeated generation -/

/-- A durable-cache hit returns it directly, touching nothing. -/
theorem generateOutfitInternal_durable_hit (env : Env) (st : GenState)
    (topPath bottomPath bodyPath : String) (topId bottomId : Option String)
    (url : String) (hkey : env.hasApiKey = true)
    (hdur : (if idTruthy topId && idTruthy bottomId then
        getCachedComposite st.durable (topId.getD "") (bottomId.getD "")
      else none) = some url) :
    generateOutfitInternal env st topPath bottomPath bodyPath topId bottomId
      = (.ok ⟨true, some url, none⟩, st) := by
  simp only [generateOutfitInternal, hkey, Bool.not_true, Bool.false_eq_true, if_false, hdur]

/-- A memory-cache hit goes through the store-and-return tail. -/
theorem generateOutfitInternal_memory_hit (env : Env) (st : GenState)
    (topPath bottomPath bodyPath : String) (topId bottomId : Option String)
    (dataUrl : String) (hkey : env.hasApiKey = true)
    (hdur : (if idTruthy topId && idTruthy bottomId then
        getCachedComposite st.durable (topId.getD "") (bottomId.getD "")
      else none) = none)
    (hmem : mapLookup st.outfitCache
        (cacheKeyFor topPath bottomPath bodyPath buildPrompt) = some dataUrl) :
    generateOutfitInternal env st topPath bottomPath bodyPath topId bottomId
      = (.ok (storeAndReturn env st topId bottomId dataUrl).1,
         (storeAndReturn env st topId bottomId dataUrl).2) := by
  simp only [generateOutfitInternal, hkey, Bool.not_true, Bool.false_eq_true, if_false,
    hdur, hmem]

/-- A parse failure never carries `success = true`. -/
theorem parseResponse_error_not_success (resp : GenResponse)
    (r : OutfitGenerationResult) (h : parseResponse resp = .error r) :
    r.success = false := by
  unfold parseResponse at h
  split at h
  · cases h
    rfl
  · split at h
    · split at h
      · cases h
        rfl
      · cases h
    · cases h
      rfl

/-- The retry loop gave up: its result is returned after recording the
invocation count. -/
theorem generateOutfitInternal_loop_result (env : Env) (st : GenState)
    (topPath bottomPath bodyPath : String) (topId bottomId : Option String)
    (rr : OutfitGenerationResult) (n : Nat) (ws : List Nat)
    (hkey : env.hasApiKey = true)
    (hdur : (if idTruthy topId && idTruthy bottomId then
        getCachedComposite st.durable (topId.getD "") (bottomId.getD "")
      else none) = none)
    (hmem : mapLookup st.outfitCache
        (cacheKeyFor topPath bottomPath bodyPath buildPrompt) = none)
    (hf1 : env.fetchOk topPath = true) (hf2 : env.fetchOk bottomPath = true)
    (hf3 : env.fetchOk bodyPath = true)
    (hra : runAttempts env.provider st.providerCalls = (.result rr, n, ws)) :
    generateOutfitInternal env st topPath bottomPath bodyPath topId bottomId
      = (.ok rr, { st with providerCalls := st.providerCalls + n }) := by
  simp only [generateOutfitInternal, hkey, Bool.not_true, Bool.false_eq_true, if_false,
    hdur, hmem, hf1, hf2, hf3, hra]

/-- A fresh successful generation inserts the data URL under the request's
key and runs the store-and-return tail. -/
theorem generateOutfitInternal_fresh_success (env : Env) (st : GenState)
    (topPath bottomPath bodyPath : String) (topId bottomId : Option String)
    (resp : GenResponse) (d : String) (n : Nat) (ws : List Nat)
    (hkey : env.hasApiKey = true)
    (hdur : (if idTruthy topId && idTruthy bottomId then
        getCachedComposite st.durable (topId.getD "") (bottomId.getD "")
      else none) = none)
    (hmem : mapLookup st.outfitCache
        (cacheKeyFor topPath bottomPath bodyPath buildPrompt) = none)
    (hf1 : env.fetchOk topPath = true) (hf2 : env.fetchOk bottomPath = true)
    (hf3 : env.fetchOk bodyPath = true)
    (hra : runAttempts env.provider st.providerCalls = (.response resp, n, ws))
    (hpr : parseResponse resp = .ok d) :
    generateOutfitInternal env st topPath bottomPath bodyPath topId bottomId
      = (.ok (storeAndReturn env
            { st with
              providerCalls := st.providerCalls + n
              outfitCache := mapInsert st.outfitCache
                (cacheKeyFor topPath bottomPath bodyPath buildPrompt)
                ("data:image/png;base64," ++ d) }
            topId bottomId ("data:image/png;base64," ++ d)).1,
         (storeAndReturn env
            { st with
              providerCalls := st.providerCalls + n
              outfitCache := mapInsert st.outfitCache
                (cacheKeyFor topPath bottomPath bodyPath buildPrompt)
                ("data:image/png;base64," ++ d) }
            topId bottomId ("data:image/png;base64," ++ d)).2) := by
  simp only [generateOutfitInternal, hkey, Bool.not_true, Bool.false_eq_true, if_false,
    hdur, hmem, hf1, hf2, hf3, hra, hpr]

/-- After the store-and-return tail has run on a state whose memory cache
holds the key, a repeated call is answered from the durable or memory
tier and returns the same value, without reaching the provider. -/
theorem second_call_after_store (env : Env) (st : GenState)
    (topPath bottomPath bodyPath : String) (topId bottomId : Option String) (u : String)
    (hkey : env.hasApiKey = true)
    (hdur : (if idTruthy topId && idTruthy bottomId then
        getCachedComposite st.durable (topId.getD "") (bottomId.getD "")
      else none) = none)
    (hmem : mapLookup st.outfitCache
        (cacheKeyFor topPath bottomPath bodyPath buildPrompt) = some u) :
    (generateOutfitInternal env (storeAndReturn env st topId bottomId u).2
        topPath bottomPath bodyPath topId bottomId).1
      = .ok (storeAndReturn env st topId bottomId u).1 ∧
    (generateOutfitInternal env (storeAndReturn env st topId bottomId u).2
        topPath bottomPath bodyPath topId bottomId).2.providerCalls
      = (storeAndReturn env st topId bottomId u).2.providerCalls := by
  unfold storeAndReturn
  by_cases hid : (idTruthy topId && idTruthy bottomId) = true
  · rw [if_pos hid]
    by_cases hup : env.uploadOk = true
    · rw [if_pos hup]
      by_cases hsu : env.storageUrl = ""
      · have hdur2 : (if idTruthy topId && idTruthy bottomId then
            getCachedComposite
              (dInsert st.durable (topId.getD "", bottomId.getD "") env.storageUrl)
              (topId.getD "") (bottomId.getD "")
          else none) = none := by
          rw [if_pos hid, getCachedComposite_insert]
          simp [hsu]
        have h2 := generateOutfitInternal_memory_hit env
          { st with durable := dInsert st.durable (topId.getD "", bottomId.getD "") env.storageUrl }
          topPath bottomPath bodyPath topId bottomId u hkey hdur2 hmem
        rw [h2]
        unfold storeAndReturn
        rw [if_pos hid, if_pos hup]
        exact ⟨rfl, rfl⟩
      · have hdur2 : (if idTruthy topId && idTruthy bottomId then
            getCachedComposite
              (dInsert st.durable (topId.getD "", bottomId.getD "") env.storageUrl)
              (topId.getD "") (bottomId.getD "")
          else none) = some env.storageUrl := by
          rw [if_pos hid, getCachedComposite_insert]
          simp [hsu]
        rw [generateOutfitInternal_durable_hit env
          { st with durable := dInsert st.durable (topId.getD "", bottomId.getD "") env.storageUrl }
          topPath bottomPath bodyPath topId bottomId env.storageUrl hkey hdur2]
        exact ⟨rfl, rfl⟩
    · rw [if_neg hup]
      rw [generateOutfitInternal_memory_hit env st topPath bottomPath bodyPath
        topId bottomId u hkey hdur hmem]
      unfold storeAndReturn
      rw [if_pos hid, if_neg hup]
      exact ⟨rfl, rfl⟩
  · rw [if_neg hid]
    rw [generateOutfitInternal_memory_hit env st topPath bottomPath bodyPath
      topId bottomId u hkey hdur hmem]
    unfold storeAndReturn
    rw [if_neg hid]
    exact ⟨rfl, rfl⟩

/-- C1: once `generateOutfitInternal` has returned a successful result
for a request, calling it again with the identical inputs (hence the
identical cache key) returns the very same result, answered from the
durable tier or the in-memory cache tier: the provider-invocation count
does not change on the second call. -/
theorem C1_second_call_cached_same_result (env : Env) (st : GenState)
    (topPath bottomPath bodyPath : String) (topId bottomId : Option String)
    (r : OutfitGenerationResult)
    (h1 : (generateOutfitInternal env st topPath bottomPath bodyPath topId bottomId).1
      = .ok r)
    (hs : r.success = true) :
    (generateOutfitInternal env
        (generateOutfitInternal env st topPath bottomPath bodyPath topId bottomId).2
        topPath bottomPath bodyPath topId bottomId).1 = .ok r ∧
    (generateOutfitInternal env
        (generateOutfitInternal env st topPath bottomPath bodyPath topId bottomId).2
        topPath bottomPath bodyPath topId bottomId).2.providerCalls
      = (generateOutfitInternal env st topPath bottomPath bodyPath topId bottomId).2.providerCalls := by
  cases hkey : env.hasApiKey with
  | false =>
    exfalso
    simp only [generateOutfitInternal, hkey, Bool.not_false, if_true] at h1
    cases h1
    simp at hs
  | true =>
    cases hdur : (if idTruthy topId && idTruthy bottomId then
        getCachedComposite st.durable (topId.getD "") (bottomId.getD "")
      else none) with
    | some url =>
      have hf := generateOutfitInternal_durable_hit env st topPath bottomPath bodyPath
        topId bottomId url hkey hdur
      rw [hf] at h1
      cases h1
      rw [hf, generateOutfitInternal_durable_hit env st topPath bottomPath bodyPath
        topId bottomId url hkey hdur]
      exact ⟨rfl, rfl⟩
    | none =>
      cases hmem : mapLookup st.outfitCache
          (cacheKeyFor topPath bottomPath bodyPath buildPrompt) with
      | some dataUrl =>
        have hf := generateOutfitInternal_memory_hit env st topPath bottomPath bodyPath
          topId bottomId dataUrl hkey hdur hmem
        rw [hf] at h1
        cases h1
        rw [hf]
        exact second_call_after_store env st topPath bottomPath bodyPath
          topId bottomId dataUrl hkey hdur hmem
      | none =>
        cases hft : env.fetchOk topPath with
        | false =>
          exfalso
          simp only [generateOutfitInternal, hkey, Bool.not_true, Bool.false_eq_true,
            if_false, hdur, hmem, hft, Bool.not_false, if_true] at h1
          cases h1
        | true =>
        cases hfb : env.fetchOk bottomPath with
        | false =>
          exfalso
          simp only [generateOutfitInternal, hkey, Bool.not_true, Bool.false_eq_true,
            if_false, hdur, hmem, hft, hfb, Bool.not_false, if_true] at h1
          cases h1
        | true =>
        cases hfm : env.fetchOk bodyPath with
        | false =>
          exfalso
          simp only [generateOutfitInternal, hkey, Bool.not_true, Bool.false_eq_true,
            if_false, hdur, hmem, hft, hfb, hfm, Bool.not_false, if_true] at h1
          cases h1
        | true =>
        rcases hra : runAttempts env.provider st.providerCalls with ⟨out, n, ws⟩
        cases out with
        | result rr =>
          exfalso
          have hfr := generateOutfitInternal_loop_result env st topPath bottomPath bodyPath
            topId bottomId rr n ws hkey hdur hmem hft hfb hfm hra
          rw [hfr] at h1
          cases h1
          have hres : (runAttemptsAux env.provider st.providerCalls 0 3).1 = .result r := by
            have h' : (runAttempts env.provider st.providerCalls).1 = .result r := by
              rw [hra]
            simpa [runAttempts] using h'
          have hfalse := runAttemptsAux_result_not_success env.provider
            st.providerCalls 0 3 r hres
          rw [hfalse] at hs
          cases hs
        | response resp =>
          cases hpr : parseResponse resp with
          | error rr =>
            exfalso
            simp only [generateOutfitInternal, hkey, Bool.not_true, Bool.false_eq_true,
              if_false, hdur, hmem, hft, hfb, hfm, hra, hpr] at h1
            cases h1
            have hfalse := parseResponse_error_not_success resp r hpr
            rw [hfalse] at hs
            cases hs
          | ok d =>
            have hf := generateOutfitInternal_fresh_success env st topPath bottomPath
              bodyPath topId bottomId resp d n ws hkey hdur hmem hft hfb hfm hra hpr
            rw [hf] at h1
            cases h1
            rw [hf]
            exact second_call_after_store env
              { st with
                providerCalls := st.providerCalls + n
                outfitCache := mapInsert st.outfitCache
                  (cacheKeyFor topPath bottomPath bodyPath buildPrompt)
                  ("data:image/png;base64," ++ d) }
              topPath bottomPath bodyPath topId bottomId
              ("data:image/png;base64," ++ d) hkey hdur
              (mapLookup_insert_self _ _ _)

/-- An environment whose provider succeeds immediately and whose durable
storage works. -/
def envProviderOK : Env :=
  ⟨true, fun _ => true, (fun _ => .ok respWithImage), true, "http://store/out.png",
   ⟨true, some "comp.png", none⟩⟩

/-- Witness for C1: a successful generation with durable storage, then a
repeat of the identical request. -/
theorem C1_second_call_cached_same_result_witness :
    (generateOutfitInternal envProviderOK
        (generateOutfitInternal envProviderOK freshGenState "t.png" "b.png" "m.png"
          (some "T1") (some "B1")).2
        "t.png" "b.png" "m.png" (some "T1") (some "B1")).1
      = .ok ⟨true, some "http://store/out.png", none⟩ ∧
    (generateOutfitInternal envProviderOK
        (generateOutfitInternal envProviderOK freshGenState "t.png" "b.png" "m.png"
          (some "T1") (some "B1")).2
        "t.png" "b.png" "m.png" (some "T1") (some "B1")).2.providerCalls
      = (generateOutfitInternal envProviderOK freshGenState "t.png" "b.png" "m.png"
          (some "T1") (some "B1")).2.providerCalls :=
  C1_second_call_cached_same_result envProviderOK freshGenState "t.png" "b.png" "m.png"
    (some "T1") (some "B1") ⟨true, some "http://store/out.png", none⟩ rfl rfl

/-- An environment whose provider always fails with a quota error but
whose composite fallback succeeds. -/
def envQuotaExhaustedWithFallback : Env :=
  ⟨true, fun _ => true, (fun _ => .fail quotaErrPlain), false, "",
   ⟨true, some "composite.png", none⟩⟩

/-- Witness for the amended C3 at the exhausted-with-working-fallback
environment: the inner generator surfaces the classified quota message
and the completed call is degraded. -/
theorem C3_amended_exhausted_fallback_or_generic_witness :
    (generateOutfitInternal envQuotaExhaustedWithFallback freshGenState "t.png" "b.png"
        "/assets/model.png" (some "T1") (some "B1")).1
      = .ok (exhaustedErrorResult quotaErrPlain) ∧
    (hookGenerateOutfit envQuotaExhaustedWithFallback 0 freshWorld topItem botItem
        none none).hs.isComposite = true ∧
    (hookGenerateOutfit envQuotaExhaustedWithFallback 0 freshWorld topItem botItem
        none none).hs.error
      = some "Using composite image (AI generation unavailable)" := by
  have h := C3_amended_exhausted_fallback_or_generic envQuotaExhaustedWithFallback 0
    freshWorld topItem botItem none none quotaErrPlain quotaErrPlain quotaErrPlain
    rfl rfl rfl rfl rfl rfl rfl rfl rfl rfl rfl rfl (by decide) (by decide)
  exact ⟨h.1, (h.2.1 (by decide)).1, (h.2.1 (by decide)).2.2⟩

/-! ## C9 — rate limiter invariants (spec-modelled) -/

/-- Modelled from the spec: successive admissions are at least the
cooldown apart. -/
def cooldownSpaced (C : Nat) (A : List Nat) : Prop :=
  List.Chain' (fun a b => a + C ≤ b) A

/-- Modelled from the spec: any `M` admissions apart in the admission
order are more than the window apart in time — equivalently, no rolling
window of length `W` contains more than `M` admissions. -/
def windowBounded (M W : Nat) (A : List Nat) : Prop :=
  ∀ i j (hi : i < A.length) (hj : j < A.length), i + M ≤ j →
    A.get ⟨i, hi⟩ + W < A.get ⟨j, hj⟩

/-- The rate limiter denies with reason `cooldown` while the last call is
closer than the cooldown. -/
theorem canMakeCall_denied_cooldown (st : RateLimiterState) (now l : Nat)
    (hl : st.lastCall = some l) (hc : now - l < st.cooldownMs) :
    (canMakeCall st now).1
      = ⟨false, some "cooldown", some (st.cooldownMs - (now - l))⟩ := by
  unfold canMakeCall
  rw [hl]
  simp [hc]

/-- The rate limiter denies with reason `quota` when the cooldown has
lapsed but the in-window count has reached the quota. -/
theorem canMakeCall_denied_quota (st : RateLimiterState) (now : Nat)
    (hc : ∀ l, st.lastCall = some l → ¬ (now - l < st.cooldownMs))
    (hq : st.maxCalls ≤ (purgeTimestamps st now).length) :
    (canMakeCall st now).1
      = ⟨false, some "quota",
          some (quotaWaitMs (purgeTimestamps st now) st.windowMs now)⟩ := by
  unfold canMakeCall
  cases hl : st.lastCall with
  | some l => simp [hc l hl, hq]
  | none => simp [hq]

/-- The rate limiter admits when the cooldown has lapsed and the
in-window count is below the quota. -/
theorem canMakeCall_allowed_eq (st : RateLimiterState) (now : Nat)
    (hc : ∀ l, st.lastCall = some l → ¬ (now - l < st.cooldownMs))
    (hq : (purgeTimestamps st now).length < st.maxCalls) :
    (canMakeCall st now).1 = ⟨true, none, none⟩ := by
  unfold canMakeCall
  cases hl : st.lastCall with
  | some l => simp [hc l hl, Nat.not_le.mpr hq]
  | none => simp [Nat.not_le.mpr hq]

/-- An admission certifies that the cooldown had lapsed and the in-window
count was below the quota. -/
theorem canMakeCall_allowed_conditions (st : RateLimiterState) (now : Nat)
    (h : (canMakeCall st now).1.allowed = true) :
    (∀ l, st.lastCall = some l → ¬ (now - l < st.cooldownMs)) ∧
    (purgeTimestamps st now).length < st.maxCalls := by
  constructor
  · intro l hl hc
    rw [canMakeCall_denied_cooldown st now l hl hc] at h
    cases h
  · by_contra hq
    have hq' := Nat.le_of_not_lt hq
    by_cases hcool : ∃ l, st.lastCall = some l ∧ now - l < st.cooldownMs
    · obtain ⟨l, hl, hc⟩ := hcool
      rw [canMakeCall_denied_cooldown st now l hl hc] at h
      cases h
    · have hc : ∀ l, st.lastCall = some l → ¬ (now - l < st.cooldownMs) :=
        fun l hl hlt => hcool ⟨l, hl, hlt⟩
      rw [canMakeCall_denied_quota st now hc hq'] at h
      cases h

/-- Re-purging at a later instant is the same as purging once at it. -/
theorem filter_window_collapse (A : List Nat) (W t1 t2 : Nat) (h : t1 ≤ t2) :
    (A.filter (fun a => decide (t1 ≤ a + W))).filter (fun a => decide (t2 ≤ a + W))
      = A.filter (fun a => decide (t2 ≤ a + W)) := by
  induction A with
  | nil => rfl
  | cons a as ih =>
    by_cases h1 : t1 ≤ a + W
    · by_cases h2 : t2 ≤ a + W
      · simp [List.filter_cons, h1, h2, ih]
      · simp [List.filter_cons, h1, h2, ih]
    · have h2 : ¬ t2 ≤ a + W := fun hc => h1 (le_trans h hc)
      simp [List.filter_cons, h1, h2, ih]

/-- In a sorted list, every element from position `i` on is at least the
element at `i`. -/
theorem sorted_get_le_of_mem_drop (A : List Nat) (i : Nat) (hi : i < A.length)
    (hsorted : List.Sorted (· ≤ ·) A) (a : Nat) (ha : a ∈ A.drop i) :
    A.get ⟨i, hi⟩ ≤ a := by
  obtain ⟨m, hm, rfl⟩ := List.mem_iff_getElem.mp ha
  rw [List.getElem_drop]
  have hlen : (A.drop i).length = A.length - i := List.length_drop i A
  have hlt : i + m < A.length := by omega
  have := hsorted.rel_get_of_le (a := ⟨i, hi⟩) (b := ⟨i + m, hlt⟩) (by simp)
  simpa [List.get_eq_getElem] using this

/-- If the in-window count at `t` of a sorted admission list is below
`M`, every admission at least `M` places before the end is already out of
the window at `t`. -/
theorem window_step (A : List Nat) (W M t i : Nat) (hi : i < A.length)
    (hsorted : List.Sorted (· ≤ ·) A)
    (hcount : (A.filter (fun a => decide (t ≤ a + W))).length < M)
    (hiM : i + M ≤ A.length) :
    A.get ⟨i, hi⟩ + W < t := by
  by_contra hle
  have ht : t ≤ A.get ⟨i, hi⟩ + W := Nat.le_of_not_lt hle
  have hall : ∀ a ∈ A.drop i, (fun a => decide (t ≤ a + W)) a = true := by
    intro a ha
    have := sorted_get_le_of_mem_drop A i hi hsorted a ha
    simp only [decide_eq_true_eq]
    omega
  have heq : (A.drop i).filter (fun a => decide (t ≤ a + W)) = A.drop i :=
    List.filter_eq_self.mpr hall
  have hsub : List.Sublist ((A.drop i).filter (fun a => decide (t ≤ a + W)))
      (A.filter (fun a => decide (t ≤ a + W))) :=
    (List.drop_sublist i A).filter _
  have hlen : A.length - i ≤ (A.filter (fun a => decide (t ≤ a + W))).length := by
    have h1 : (A.drop i).length = A.length - i := List.length_drop i A
    have h2 := hsub.length_le
    rw [heq] at h2
    omega
  omega

/-- Unfolding equation of `runChecks` on a nonempty check list. -/
theorem runChecks_cons (st : RateLimiterState) (t : Nat) (ts : List Nat) :
    runChecks st (t :: ts)
      = if (canMakeCall st t).1.allowed then
          ((runChecks (recordCall (canMakeCall st t).2 t) ts).1,
           t :: (runChecks (recordCall (canMakeCall st t).2 t) ts).2)
        else runChecks (canMakeCall st t).2 ts := rfl

/-- Modelled from the spec: master invariant of a check/record trace.
From a state that faithfully represents a sorted admission history `A`
purged at `tcur`, running further (time-ordered) admission checks keeps
the admission history cooldown-spaced and window-bounded. -/
theorem runChecks_invariant (C M W : Nat) (checks : List Nat) :
    ∀ (st : RateLimiterState) (A : List Nat) (tcur : Nat),
      st.cooldownMs = C → st.maxCalls = M → st.windowMs = W →
      st.timestamps = A.filter (fun a => decide (tcur ≤ a + W)) →
      st.lastCall = A.getLast? →
      (∀ a ∈ A, a ≤ tcur) →
      List.Sorted (· ≤ ·) A →
      cooldownSpaced C A →
      windowBounded M W A →
      (∀ c ∈ checks, tcur ≤ c) →
      List.Sorted (· ≤ ·) checks →
      List.Sorted (· ≤ ·) (A ++ (runChecks st checks).2) ∧
      cooldownSpaced C (A ++ (runChecks st checks).2) ∧
      windowBounded M W (A ++ (runChecks st checks).2) := by
  induction checks with
  | nil =>
    intro st A tcur _ _ _ _ _ _ hAsorted hAcool hAwin _ _
    simpa [runChecks] using ⟨hAsorted, hAcool, hAwin⟩
  | cons t ts ih =>
    intro st A tcur hC hM hW hts hlast hAle hAsorted hAcool hAwin hcheck hchsorted
    have htcur_t : tcur ≤ t := hcheck t (List.mem_cons_self _ _)
    have hts_t : ∀ c ∈ ts, t ≤ c := (List.sorted_cons.mp hchsorted).1
    have hts_sorted : List.Sorted (· ≤ ·) ts := (List.sorted_cons.mp hchsorted).2
    have hpurged : purgeTimestamps st t = A.filter (fun a => decide (t ≤ a + W)) := by
      unfold purgeTimestamps
      rw [hts, hW, filter_window_collapse A W tcur t htcur_t]
    have hstP : (canMakeCall st t).2 = { st with timestamps := purgeTimestamps st t } :=
      canMakeCall_state st t
    cases hallow : (canMakeCall st t).1.allowed with
    | false =>
      have hrun : runChecks st (t :: ts) = runChecks (canMakeCall st t).2 ts := by
        rw [runChecks_cons, hallow]
        simp
      rw [hrun, hstP]
      refine ih _ A t ?_ ?_ ?_ ?_ ?_ ?_ ?_ ?_ ?_ ?_ ?_
      · exact hC
      · exact hM
      · exact hW
      · exact hpurged
      · exact hlast
      · exact fun a ha => le_trans (hAle a ha) htcur_t
      · exact hAsorted
      · exact hAcool
      · exact hAwin
      · exact hts_t
      · exact hts_sorted
    | true =>
      obtain ⟨hcoolOK, hcount⟩ := canMakeCall_allowed_conditions st t hallow
      rw [hpurged] at hcount
      rw [hM] at hcount
      have hM1 : 1 ≤ M := by omega
      have hrun : (runChecks st (t :: ts)).2
          = t :: (runChecks (recordCall (canMakeCall st t).2 t) ts).2 := by
        rw [runChecks_cons, hallow]
        simp
      have happ : A ++ (t :: (runChecks (recordCall (canMakeCall st t).2 t) ts).2)
          = (A ++ [t]) ++ (runChecks (recordCall (canMakeCall st t).2 t) ts).2 := by
        simp
      rw [hrun, happ, hstP]
      refine ih _ (A ++ [t]) t ?_ ?_ ?_ ?_ ?_ ?_ ?_ ?_ ?_ ?_ ?_
      · exact hC
      · exact hM
      · exact hW
      · show purgeTimestamps st t ++ [t]
          = (A ++ [t]).filter (fun a => decide (t ≤ a + W))
        rw [hpurged, List.filter_append]
        simp
      · show some t = (A ++ [t]).getLast?
        rw [List.getLast?_concat]
      · intro a ha
        rcases List.mem_append.mp ha with h | h
        · exact le_trans (hAle a h) htcur_t
        · exact le_of_eq (by simpa using h)
      · rw [List.Sorted, List.pairwise_append]
        refine ⟨hAsorted, List.sorted_singleton t, ?_⟩
        intro a ha b hb
        have hb' : b = t := by simpa using hb
        subst hb'
        exact le_trans (hAle a ha) htcur_t
      · rw [cooldownSpaced, List.chain'_append]
        refine ⟨hAcool, List.chain'_singleton _, ?_⟩
        intro x hx y hy
        have hy' : t = y := by simpa using hy
        subst hy'
        have hlx : st.lastCall = some x := by
          rw [hlast]
          exact Option.mem_def.mp hx
        have hxle : x ≤ t := by
          obtain ⟨hne, hxe⟩ := List.mem_getLast?_eq_getLast hx
          have hxA : x ∈ A := hxe ▸ List.getLast_mem hne
          exact le_trans (hAle x hxA) htcur_t
        have := hcoolOK x hlx
        rw [hC] at this
        omega
      · intro i j hi hj hij
        have hlen : (A ++ [t]).length = A.length + 1 := by simp
        by_cases hjA : j < A.length
        · have hiA : i < A.length := by omega
          have hgi : (A ++ [t]).get ⟨i, hi⟩ = A.get ⟨i, hiA⟩ := by
            simp only [List.get_eq_getElem]
            rw [List.getElem_append_left]
          have hgj : (A ++ [t]).get ⟨j, hj⟩ = A.get ⟨j, hjA⟩ := by
            simp only [List.get_eq_getElem]
            rw [List.getElem_append_left]
          rw [hgi, hgj]
          exact hAwin i j hiA hjA hij
        · have hjt : j = A.length := by omega
          subst hjt
          have hiA : i < A.length := by omega
          have hgi : (A ++ [t]).get ⟨i, hi⟩ = A.get ⟨i, hiA⟩ := by
            simp only [List.get_eq_getElem]
            rw [List.getElem_append_left]
          have hgj : (A ++ [t]).get ⟨A.length, hj⟩ = t := by
            simp only [List.get_eq_getElem]
            rw [List.getElem_append_right] <;> simp
          rw [hgi, hgj]
          exact window_step A W M t i hiA hAsorted hcount (by omega)
      · exact hts_t
      · exact hts_sorted

/-- Modelled from the spec: the cooldown condition still blocks at `t`
(state frozen). -/
def cooldownBlockedAt (st : RateLimiterState) (t : Nat) : Prop :=
  ∃ l, st.lastCall = some l ∧ t - l < st.cooldownMs

/-- Modelled from the spec: with the in-window entries frozen as `ts`,
the quota condition still blocks at `t`. -/
def quotaBlockedAt (ts : List Nat) (W M t : Nat) : Prop :=
  M ≤ (ts.filter (fun a => decide (t ≤ a + W))).length

/-- Modelled from the spec: every denial carries a reason and the wait
until the reported blocking condition clears — blocked at every earlier
instant, clear at `now + waitMs`. -/
theorem canMakeCall_denial_reporting (st : RateLimiterState) (now : Nat)
    (hsorted : List.Sorted (· ≤ ·) st.timestamps)
    (hlast : ∀ l, st.lastCall = some l → l ≤ now)
    (hlen : (purgeTimestamps st now).length ≤ st.maxCalls)
    (hM : 1 ≤ st.maxCalls)
    (hdeny : (canMakeCall st now).1.allowed = false) :
    ∃ w, (canMakeCall st now).1.waitMs = some w ∧
      (((canMakeCall st now).1.reason = some "cooldown" ∧
        cooldownBlockedAt st now ∧ ¬ cooldownBlockedAt st (now + w) ∧
        ∀ w' < w, cooldownBlockedAt st (now + w')) ∨
       ((canMakeCall st now).1.reason = some "quota" ∧
        quotaBlockedAt (purgeTimestamps st now) st.windowMs st.maxCalls now ∧
        ¬ quotaBlockedAt (purgeTimestamps st now) st.windowMs st.maxCalls (now + w) ∧
        ∀ w' < w, quotaBlockedAt (purgeTimestamps st now) st.windowMs st.maxCalls (now + w'))) := by
  by_cases hcool : ∃ l, st.lastCall = some l ∧ now - l < st.cooldownMs
  · obtain ⟨l, hl, hc⟩ := hcool
    have hln := hlast l hl
    rw [canMakeCall_denied_cooldown st now l hl hc]
    refine ⟨st.cooldownMs - (now - l), rfl, Or.inl ⟨rfl, ⟨l, hl, hc⟩, ?_, ?_⟩⟩
    · rintro ⟨l', hl', hc'⟩
      rw [hl] at hl'
      injection hl' with hll
      subst hll
      omega
    · intro w' hw'
      exact ⟨l, hl, by omega⟩
  · have hc : ∀ l, st.lastCall = some l → ¬ (now - l < st.cooldownMs) :=
      fun l hl hlt => hcool ⟨l, hl, hlt⟩
    have hq : st.maxCalls ≤ (purgeTimestamps st now).length := by
      by_contra hq'
      rw [canMakeCall_allowed_eq st now hc (Nat.lt_of_not_le hq')] at hdeny
      cases hdeny
    rw [canMakeCall_denied_quota st now hc hq]
    have hinw : ∀ a ∈ purgeTimestamps st now, now ≤ a + st.windowMs := by
      intro a ha
      have := (List.mem_filter.mp ha).2
      simpa using this
    have hsorted' : List.Sorted (· ≤ ·) (purgeTimestamps st now) :=
      List.Pairwise.sublist (List.filter_sublist _) hsorted
    have hne : purgeTimestamps st now ≠ [] := by
      intro h
      rw [h] at hq
      simp at hq
      omega
    obtain ⟨o, rest, hcons⟩ := List.exists_cons_of_ne_nil hne
    have homem : o ∈ purgeTimestamps st now := by rw [hcons]; exact List.mem_cons_self _ _
    have honow : now ≤ o + st.windowMs := hinw o homem
    have holes : ∀ a ∈ purgeTimestamps st now, o ≤ a := by
      intro a ha
      rw [hcons] at ha hsorted'
      rcases List.mem_cons.mp ha with h | h
      · omega
      · exact (List.sorted_cons.mp hsorted').1 a h
    have hwait : quotaWaitMs (purgeTimestamps st now) st.windowMs now
        = o + st.windowMs + 1 - now := by
      rw [quotaWaitMs, hcons]
      rfl
    refine ⟨_, rfl, Or.inr ⟨rfl, ?_, ?_, ?_⟩⟩
    · rw [quotaBlockedAt, List.filter_eq_self.mpr]
      · exact hq
      · intro a ha
        simpa using hinw a ha
    · rw [hwait]
      rw [quotaBlockedAt, hcons]
      have hfo : (decide (now + (o + st.windowMs + 1 - now) ≤ o + st.windowMs)) = false := by
        simp
        omega
      rw [List.filter_cons, hfo]
      simp only [Bool.false_eq_true, if_false]
      intro habs
      have h1 : (rest.filter
          (fun a => decide (now + (o + st.windowMs + 1 - now) ≤ a + st.windowMs))).length
          ≤ rest.length := List.length_filter_le _ _
      have h2 : (purgeTimestamps st now).length = rest.length + 1 := by
        rw [hcons]
        rfl
      omega
    · intro w' hw'
      rw [hwait] at hw'
      rw [quotaBlockedAt, List.filter_eq_self.mpr]
      · exact le_trans hq (le_of_eq rfl)
      · intro a ha
        have h1 := holes a ha
        simp only [decide_eq_true_eq]
        omega

/-- C9 (spec-modelled — `src/services/rateLimiter.ts` is not among the
provided sources, so the limiter is modelled from §4.1 of the spec):
(1) over every time-ordered sequence of admission checks from a fresh
limiter, successive admissions are at least `cooldownMs` apart and any
`maxCalls` admissions apart in order are more than `windowMs` apart in
time (so no rolling `windowMs` interval holds more than `maxCalls`
admissions); (2) timestamps older than the window are purged before each
admission check — the post-check state holds exactly the in-window
entries; (3) every denial reports a reason and the wait until the
reported blocking condition clears (still blocked at every earlier
instant, clear after the wait). -/
theorem C9_rate_limiter_invariants :
    (∀ (st : RateLimiterState) (checks : List Nat),
      st.timestamps = [] → st.lastCall = none →
      List.Sorted (· ≤ ·) checks →
      cooldownSpaced st.cooldownMs (runChecks st checks).2 ∧
      windowBounded st.maxCalls st.windowMs (runChecks st checks).2) ∧
    (∀ (st : RateLimiterState) (now : Nat),
      (canMakeCall st now).2.timestamps
        = st.timestamps.filter (fun a => decide (now ≤ a + st.windowMs)) ∧
      ∀ a ∈ (canMakeCall st now).2.timestamps, now ≤ a + st.windowMs) ∧
    (∀ (st : RateLimiterState) (now : Nat),
      List.Sorted (· ≤ ·) st.timestamps →
      (∀ l, st.lastCall = some l → l ≤ now) →
      (purgeTimestamps st now).length ≤ st.maxCalls →
      1 ≤ st.maxCalls →
      (canMakeCall st now).1.allowed = false →
      ∃ w, (canMakeCall st now).1.waitMs = some w ∧
        (((canMakeCall st now).1.reason = some "cooldown" ∧
          cooldownBlockedAt st now ∧ ¬ cooldownBlockedAt st (now + w) ∧
          ∀ w' < w, cooldownBlockedAt st (now + w')) ∨
         ((canMakeCall st now).1.reason = some "quota" ∧
          quotaBlockedAt (purgeTimestamps st now) st.windowMs st.maxCalls now ∧
          ¬ quotaBlockedAt (purgeTimestamps st now) st.windowMs st.maxCalls (now + w) ∧
          ∀ w' < w, quotaBlockedAt (purgeTimestamps st now) st.windowMs st.maxCalls
            (now + w')))) := by
  refine ⟨?_, ?_, ?_⟩
  · intro st checks hts hlast hsorted
    have h := runChecks_invariant st.cooldownMs st.maxCalls st.windowMs checks st [] 0
      rfl rfl rfl (by simpa using hts) (by simpa using hlast)
      (by intro a ha; cases ha) (by simp) (by simp [cooldownSpaced])
      (by intro i j hi hj hij; cases hi)
      (by intro c hc; exact Nat.zero_le c) hsorted
    simpa using ⟨h.2.1, h.2.2⟩
  · intro st now
    constructor
    · rw [canMakeCall_state]
      rfl
    · intro a ha
      rw [canMakeCall_state] at ha
      have := (List.mem_filter.mp ha).2
      simpa using this
  · intro st now h1 h2 h3 h4 h5
    exact canMakeCall_denial_reporting st now h1 h2 h3 h4 h5

/-- Witness for C9: four checks spaced 3 s on a `{cooldown 2000, max 2,
window 10000}` limiter, one purge observation, and one concrete denial
with its reported wait. -/
theorem C9_rate_limiter_invariants_witness :
    (cooldownSpaced 2000 (runChecks ⟨[], none, 2000, 2, 10000⟩ [0, 3000, 6000, 9000]).2 ∧
     windowBounded 2 10000 (runChecks ⟨[], none, 2000, 2, 10000⟩ [0, 3000, 6000, 9000]).2) ∧
    ((canMakeCall ⟨[0, 5000], some 5000, 2000, 2, 10000⟩ 6000).2.timestamps
      = [0, 5000].filter (fun a => decide (6000 ≤ a + 10000))) ∧
    (∃ w, (canMakeCall ⟨[0, 5000], some 5000, 2000, 2, 10000⟩ 6000).1.waitMs = some w ∧
      (((canMakeCall ⟨[0, 5000], some 5000, 2000, 2, 10000⟩ 6000).1.reason = some "cooldown" ∧
        cooldownBlockedAt ⟨[0, 5000], some 5000, 2000, 2, 10000⟩ 6000 ∧
        ¬ cooldownBlockedAt ⟨[0, 5000], some 5000, 2000, 2, 10000⟩ (6000 + w) ∧
        ∀ w' < w, cooldownBlockedAt ⟨[0, 5000], some 5000, 2000, 2, 10000⟩ (6000 + w')) ∨
       ((canMakeCall ⟨[0, 5000], some 5000, 2000, 2, 10000⟩ 6000).1.reason = some "quota" ∧
        quotaBlockedAt (purgeTimestamps ⟨[0, 5000], some 5000, 2000, 2, 10000⟩ 6000)
          10000 2 6000 ∧
        ¬ quotaBlockedAt (purgeTimestamps ⟨[0, 5000], some 5000, 2000, 2, 10000⟩ 6000)
          10000 2 (6000 + w) ∧
        ∀ w' < w, quotaBlockedAt (purgeTimestamps ⟨[0, 5000], some 5000, 2000, 2, 10000⟩ 6000)
          10000 2 (6000 + w')))) := by
  refine ⟨?_, ?_, ?_⟩
  · exact C9_rate_limiter_invariants.1 ⟨[], none, 2000, 2, 10000⟩ [0, 3000, 6000, 9000]
      rfl rfl (by decide)
  · exact (C9_rate_limiter_invariants.2.1 ⟨[0, 5000], some 5000, 2000, 2, 10000⟩ 6000).1
  · exact C9_rate_limiter_invariants.2.2 ⟨[0, 5000], some 5000, 2000, 2, 10000⟩ 6000
      (by decide) (by intro l hl; injection hl with h; omega) (by decide) (by decide)
      (by decide)
